import Mathlib

/-!
Shallow embedding of the motion-tracking detector core
(`src/detectors/fall.ts`, `inactivity.ts` (two variants), `zone.ts`,
`presence.ts`).  Numbers are modelled as exact rationals; the movement
score of the inactivity detectors uses `Real.sqrt` exactly where the
source uses `Math.sqrt`.  Detector classes become state structures plus
pure `update / configure / reset` functions returning the new state and
the `DetectorResult`.
-/

namespace MotionPoc

/-- One pose landmark (`NormalizedLandmark` in the source): normalized
`x`,`y` coordinates, relative depth `z`, and a visibility confidence. -/
structure Landmark where
  x : ℚ
  y : ℚ
  z : ℚ
  visibility : ℚ
deriving DecidableEq

/-- Fallback landmark for out-of-range indexing.  Modelled from the spec:
the caller contract fixes landmark sequences at 33 entries, so under the
contract this default is never consulted. -/
def defaultLandmark : Landmark := ⟨0, 0, 0, 0⟩

/-- Modelled from the spec: the `LANDMARK` index table lives in
`src/types.ts`, which is not among the provided sources.  The spec
describes a fixed 33-entry sequence indexed by named body parts; these
are the standard MediaPipe pose indices for the four points the
detectors read. -/
def LEFT_SHOULDER : Nat := 11

/-- Modelled from the spec: see `LEFT_SHOULDER`. -/
def RIGHT_SHOULDER : Nat := 12

/-- Modelled from the spec: see `LEFT_SHOULDER`. -/
def LEFT_HIP : Nat := 23

/-- Modelled from the spec: see `LEFT_SHOULDER`. -/
def RIGHT_HIP : Nat := 24

/-- Modelled from the spec: the 33-entry landmark-sequence length of the
caller contract (`LANDMARK_COUNT` in the missing `src/types.ts`). -/
def LANDMARK_COUNT : Nat := 33

/-- `DetectorStatus` from `src/detectors/types.ts`. -/
inductive DetectorStatus where
  | OK
  | WARNING
  | ALERT
deriving DecidableEq

/-- `DetectorResult` from `src/detectors/types.ts`. -/
structure DetectorResult where
  status : DetectorStatus
  message : String
deriving DecidableEq

/-- JavaScript `(q).toFixed(0)` as an integer: the integer closest to
`q`, ties resolved to the larger integer. -/
def toFixed0 (q : ℚ) : ℤ := ⌊q + 1 / 2⌋

/-- JavaScript `(q).toFixed(1)` as a string, for the nonnegative values
the detectors print: the multiple of 1/10 closest to `q` (ties up),
rendered with one decimal digit. -/
def toFixed1 (q : ℚ) : String :=
  let n : ℤ := ⌊10 * q + 1 / 2⌋
  toString (n / 10) ++ "." ++ toString (n % 10)

/-- A frame fed to `update`: either no detected subject or a landmark
sequence, together with the frame timestamp in milliseconds. -/
abbrev Frame := Option (List Landmark) × ℚ

/-- The `delta` computation shared verbatim by the presence, zone and
inactivity detectors: elapsed milliseconds since the stored previous
update, 0 when there is no stored timestamp. -/
def frameDelta (lastUpdateTimestamp : Option ℚ) (timestamp : ℚ) : ℚ :=
  match lastUpdateTimestamp with
  | some t0 => timestamp - t0
  | none => 0

-- ============================================================
-- Fall detector (`src/detectors/fall.ts`)
-- ============================================================

/-- Private state of `FallDetector`. -/
structure FallState where
  holdDuration : ℚ
  fallenSince : Option ℚ
deriving DecidableEq

/-- Axis-aligned bounding box accumulator used by
`FallDetector.checkFallenPosture`; `none` plays the role of the
`Infinity` sentinels before any visible landmark is seen. -/
structure BBox where
  minX : ℚ
  maxX : ℚ
  minY : ℚ
  maxY : ℚ
deriving DecidableEq

/-- One iteration of the bounding-box loop in `checkFallenPosture`:
skip landmarks with visibility below 0.5, otherwise extend the box. -/
def bboxStep (acc : Option BBox) (lm : Landmark) : Option BBox :=
  if lm.visibility < 1 / 2 then acc
  else
    match acc with
    | none => some ⟨lm.x, lm.x, lm.y, lm.y⟩
    | some b => some ⟨min b.minX lm.x, max b.maxX lm.x, min b.minY lm.y, max b.maxY lm.y⟩

/-- Bounding box of the landmarks with visibility at least 0.5; `none`
when no landmark passes the floor. -/
def visibleBBox (lms : List Landmark) : Option BBox :=
  lms.foldl bboxStep none

namespace FallDetector

/-- `new FallDetector({holdDuration})`. -/
def init (holdDuration : ℚ) : FallState := ⟨holdDuration, none⟩

/-- `FallDetector.checkFallenPosture`: shoulder/hip midpoints collapsed
vertically and bounding box wider than 1.4 times its height.  An
undefined box (no visible landmark, `none`) leaves the `Infinity`
sentinels in place in the source, so `height ≤ 0` fails the test. -/
def checkFallenPosture (lms : List Landmark) : Bool :=
  let shoulderMidY :=
    ((lms.getD LEFT_SHOULDER defaultLandmark).y + (lms.getD RIGHT_SHOULDER defaultLandmark).y) / 2
  let hipMidY :=
    ((lms.getD LEFT_HIP defaultLandmark).y + (lms.getD RIGHT_HIP defaultLandmark).y) / 2
  let shoulderHipDist := |shoulderMidY - hipMidY|
  if shoulderHipDist ≥ 5 / 100 then false
  else
    match visibleBBox lms with
    | none => false
    | some b =>
      let width := b.maxX - b.minX
      let height := b.maxY - b.minY
      if height ≤ 0 then false
      else decide (width / height > 7 / 5)

/-- `FallDetector.update`. -/
def update (s : FallState) (landmarks : Option (List Landmark)) (timestamp : ℚ) :
    FallState × DetectorResult :=
  match landmarks with
  | none => (⟨s.holdDuration, none⟩, ⟨.OK, ""⟩)
  | some lms =>
    if checkFallenPosture lms then
      let fallenSince := s.fallenSince.getD timestamp
      let elapsed := timestamp - fallenSince
      let s' : FallState := ⟨s.holdDuration, some fallenSince⟩
      if elapsed ≥ s.holdDuration then
        (s', ⟨.ALERT, "Fall detected (" ++ toFixed1 (elapsed / 1000) ++ "s)"⟩)
      else
        (s', ⟨.WARNING, "Possible fall (" ++ toFixed1 (elapsed / 1000) ++ "s)"⟩)
    else (⟨s.holdDuration, none⟩, ⟨.OK, ""⟩)

/-- `FallDetector.configure`: `holdDuration` is overwritten when the
config bag carries a numeric `holdDuration`, else ignored. -/
def configure (s : FallState) (holdDuration : Option ℚ) : FallState :=
  ⟨holdDuration.getD s.holdDuration, s.fallenSince⟩

/-- `FallDetector.reset`. -/
def reset (s : FallState) : FallState := ⟨s.holdDuration, none⟩

end FallDetector

-- ============================================================
-- Presence detector (`src/detectors/presence.ts`)
-- ============================================================

/-- Private state of `PresenceDetector`. -/
structure PresenceState where
  timeout : ℚ
  absenceElapsedMs : ℚ
  lastUpdateTimestamp : Option ℚ
deriving DecidableEq

namespace PresenceDetector

/-- `new PresenceDetector({timeout})`. -/
def init (timeout : ℚ) : PresenceState := ⟨timeout, 0, none⟩

/-- `PresenceDetector.update`. -/
def update (s : PresenceState) (landmarks : Option (List Landmark)) (timestamp : ℚ) :
    PresenceState × DetectorResult :=
  let delta := frameDelta s.lastUpdateTimestamp timestamp
  match landmarks with
  | some _ => (⟨s.timeout, 0, some timestamp⟩, ⟨.OK, "Person visible"⟩)
  | none =>
    let a := s.absenceElapsedMs + delta
    let s' : PresenceState := ⟨s.timeout, a, some timestamp⟩
    let seconds : ℤ := ⌊a / 1000⌋
    if a ≥ s.timeout then
      (s', ⟨.ALERT, "Not seen for " ++ toString seconds ++ "s"⟩)
    else if a > 0 then
      (s', ⟨.WARNING, "Not seen for " ++ toString seconds ++ "s"⟩)
    else (s', ⟨.OK, ""⟩)

/-- `PresenceDetector.configure`. -/
def configure (s : PresenceState) (timeout : Option ℚ) : PresenceState :=
  ⟨timeout.getD s.timeout, s.absenceElapsedMs, s.lastUpdateTimestamp⟩

/-- `PresenceDetector.reset`. -/
def reset (s : PresenceState) : PresenceState := ⟨s.timeout, 0, none⟩

end PresenceDetector

-- ============================================================
-- Zone detector (`src/detectors/zone.ts`)
-- ============================================================

/-- `ZoneRect` from `src/types.ts` as used by the zone detector. -/
structure ZoneRect where
  x1 : ℚ
  y1 : ℚ
  x2 : ℚ
  y2 : ℚ
deriving DecidableEq

/-- Private state of `ZoneDetector`. -/
structure ZoneState where
  breachDuration : ℚ
  zoneRect : Option ZoneRect
  outsideElapsedMs : ℚ
  lastUpdateTimestamp : Option ℚ
deriving DecidableEq

namespace ZoneDetector

/-- `new ZoneDetector({breachDuration})`. -/
def init (breachDuration : ℚ) : ZoneState := ⟨breachDuration, none, 0, none⟩

/-- `ZoneDetector.setZoneRect`: stores the rect and zeroes the
outside-accumulator. -/
def setZoneRect (s : ZoneState) (rect : Option ZoneRect) : ZoneState :=
  ⟨s.breachDuration, rect, 0, s.lastUpdateTimestamp⟩

/-- `ZoneDetector.checkInside`: inclusive containment of the hip
midpoint (the source returns `true` on a missing rect). -/
def checkInside (zoneRect : Option ZoneRect) (lms : List Landmark) : Bool :=
  match zoneRect with
  | none => true
  | some r =>
    let hipX := ((lms.getD LEFT_HIP defaultLandmark).x + (lms.getD RIGHT_HIP defaultLandmark).x) / 2
    let hipY := ((lms.getD LEFT_HIP defaultLandmark).y + (lms.getD RIGHT_HIP defaultLandmark).y) / 2
    decide (hipX ≥ r.x1 ∧ hipX ≤ r.x2 ∧ hipY ≥ r.y1 ∧ hipY ≤ r.y2)

/-- `ZoneDetector.update`. -/
def update (s : ZoneState) (landmarks : Option (List Landmark)) (timestamp : ℚ) :
    ZoneState × DetectorResult :=
  match s.zoneRect with
  | none => (⟨s.breachDuration, none, s.outsideElapsedMs, some timestamp⟩, ⟨.OK, "No zone set"⟩)
  | some rect =>
    let delta := frameDelta s.lastUpdateTimestamp timestamp
    let isInside := match landmarks with
      | some lms => checkInside (some rect) lms
      | none => false
    let outside := if isInside then 0 else s.outsideElapsedMs + delta
    let s' : ZoneState := ⟨s.breachDuration, some rect, outside, some timestamp⟩
    if isInside || decide (outside ≤ 0) then (s', ⟨.OK, "Inside zone"⟩)
    else if outside ≥ s.breachDuration then
      (s', ⟨.ALERT, "Outside zone for " ++ toFixed1 (outside / 1000) ++ "s"⟩)
    else
      (s', ⟨.WARNING, "Leaving zone (" ++ toFixed1 (outside / 1000) ++ "s)"⟩)

/-- `ZoneDetector.configure`. -/
def configure (s : ZoneState) (breachDuration : Option ℚ) : ZoneState :=
  ⟨breachDuration.getD s.breachDuration, s.zoneRect, s.outsideElapsedMs, s.lastUpdateTimestamp⟩

/-- `ZoneDetector.reset`: note that the zone rect is kept. -/
def reset (s : ZoneState) : ZoneState := ⟨s.breachDuration, s.zoneRect, 0, none⟩

end ZoneDetector

-- ============================================================
-- Inactivity detectors
-- (`src/detectors/inactivity.ts` and its sensitivity-tunable variant)
-- ============================================================

/-- `DEAD_ZONE` constant of `src/detectors/inactivity.ts` (0.002). -/
def DEAD_ZONE : ℚ := 2 / 1000

/-- `MOVEMENT_THRESHOLD` constant of `src/detectors/inactivity.ts` (0.01). -/
def MOVEMENT_THRESHOLD : ℚ := 1 / 100

/-- `SENSITIVITY_MIN` of the sensitivity-tunable variant. -/
def SENSITIVITY_MIN : ℚ := 1

/-- `SENSITIVITY_MAX` of the sensitivity-tunable variant. -/
def SENSITIVITY_MAX : ℚ := 10

/-- `DEAD_ZONE_AT_LOW` of the sensitivity-tunable variant (0.004). -/
def DEAD_ZONE_AT_LOW : ℚ := 4 / 1000

/-- `DEAD_ZONE_AT_HIGH` of the sensitivity-tunable variant (0.0001). -/
def DEAD_ZONE_AT_HIGH : ℚ := 1 / 10000

/-- `MOVEMENT_THRESHOLD_AT_LOW` of the sensitivity-tunable variant (0.02). -/
def MOVEMENT_THRESHOLD_AT_LOW : ℚ := 2 / 100

/-- `MOVEMENT_THRESHOLD_AT_HIGH` of the sensitivity-tunable variant (0.0005). -/
def MOVEMENT_THRESHOLD_AT_HIGH : ℚ := 5 / 10000

/-- `lerp` of the sensitivity-tunable variant: linear interpolation from
the low endpoint (sensitivity 1) to the high endpoint (sensitivity 10). -/
def lerp (atLow atHigh sensitivity : ℚ) : ℚ :=
  let t := (sensitivity - SENSITIVITY_MIN) / (SENSITIVITY_MAX - SENSITIVITY_MIN)
  atLow + t * (atHigh - atLow)

/-- Loop body of `computeMovementScore`, index-aligned over the two
landmark lists exactly as the source loop runs
`i < prev.length && i < curr.length`, accumulating `score`.  Pairs are
skipped when the joint visibility is below 0.5 or the Euclidean
distance is below the dead zone; otherwise the visibility-weighted
distance is added. -/
noncomputable def movementScoreAux (deadZone : ℚ) (score : ℝ) :
    List Landmark → List Landmark → ℝ
  | p :: ps, c :: cs =>
    let visibility := min p.visibility c.visibility
    if visibility < 1 / 2 then movementScoreAux deadZone score ps cs
    else
      let dx := c.x - p.x
      let dy := c.y - p.y
      let dist := Real.sqrt ((dx * dx + dy * dy : ℚ) : ℝ)
      if dist < (deadZone : ℝ) then movementScoreAux deadZone score ps cs
      else movementScoreAux deadZone (score + dist * (visibility : ℝ)) ps cs
  | _, _ => score

/-- `computeMovementScore` shared by both inactivity implementations,
with the dead zone as the per-implementation parameter. -/
noncomputable def computeMovementScore (deadZone : ℚ) (prev curr : List Landmark) : ℝ :=
  movementScoreAux deadZone 0 prev curr

/-- `buildResult`, identical in both inactivity implementations:
status from the accumulator against the configured duration, message
showing `(elapsed/1000).toFixed(0)` seconds. -/
def buildResult (elapsedInactiveMs duration : ℚ) : DetectorResult :=
  if elapsedInactiveMs ≤ 0 then ⟨.OK, ""⟩
  else
    let seconds := toFixed0 (elapsedInactiveMs / 1000)
    if elapsedInactiveMs ≥ duration then ⟨.ALERT, "Inactive for " ++ toString seconds ++ "s"⟩
    else ⟨.WARNING, "No movement for " ++ toString seconds ++ "s"⟩

/-- Private state of the `InactivityDetector` in
`src/detectors/inactivity.ts` (fixed dead zone and threshold). -/
structure InactivityState where
  duration : ℚ
  previousLandmarks : Option (List Landmark)
  lastUpdateTimestamp : Option ℚ
  elapsedInactiveMs : ℚ

namespace InactivityDetector

/-- `new InactivityDetector({duration})`. -/
def init (duration : ℚ) : InactivityState := ⟨duration, none, none, 0⟩

/-- `InactivityDetector.update` of `src/detectors/inactivity.ts`. -/
noncomputable def update (s : InactivityState) (landmarks : Option (List Landmark)) (timestamp : ℚ) :
    InactivityState × DetectorResult :=
  match landmarks with
  | none =>
    (⟨s.duration, s.previousLandmarks, some timestamp, s.elapsedInactiveMs⟩,
      buildResult s.elapsedInactiveMs s.duration)
  | some lms =>
    match s.previousLandmarks with
    | none => (⟨s.duration, some lms, some timestamp, s.elapsedInactiveMs⟩, ⟨.OK, ""⟩)
    | some prev =>
      let movementScore := computeMovementScore DEAD_ZONE prev lms
      let delta := frameDelta s.lastUpdateTimestamp timestamp
      let elapsed :=
        if movementScore ≥ (MOVEMENT_THRESHOLD : ℝ) then 0 else s.elapsedInactiveMs + delta
      (⟨s.duration, some lms, some timestamp, elapsed⟩, buildResult elapsed s.duration)

/-- `InactivityDetector.configure` of `src/detectors/inactivity.ts`:
only a numeric `duration` field is recognized. -/
def configure (s : InactivityState) (duration : Option ℚ) : InactivityState :=
  ⟨duration.getD s.duration, s.previousLandmarks, s.lastUpdateTimestamp, s.elapsedInactiveMs⟩

/-- `InactivityDetector.reset`. -/
def reset (s : InactivityState) : InactivityState := ⟨s.duration, none, none, 0⟩

end InactivityDetector

/-- Private state of the sensitivity-tunable `InactivityDetector`
variant (the `deadZone` and `movementThreshold` fields are derived from
the sensitivity by `lerp`). -/
structure InactivityAltState where
  duration : ℚ
  deadZone : ℚ
  movementThreshold : ℚ
  previousLandmarks : Option (List Landmark)
  lastUpdateTimestamp : Option ℚ
  elapsedInactiveMs : ℚ

namespace InactivityDetectorAlt

/-- `new InactivityDetector({duration, sensitivity?})` of the
sensitivity-tunable variant; a missing sensitivity defaults to 1. -/
def init (duration : ℚ) (sensitivity : Option ℚ) : InactivityAltState :=
  let sens := sensitivity.getD 1
  ⟨duration, lerp DEAD_ZONE_AT_LOW DEAD_ZONE_AT_HIGH sens,
    lerp MOVEMENT_THRESHOLD_AT_LOW MOVEMENT_THRESHOLD_AT_HIGH sens, none, none, 0⟩

/-- `update` of the sensitivity-tunable variant. -/
noncomputable def update (s : InactivityAltState) (landmarks : Option (List Landmark))
    (timestamp : ℚ) : InactivityAltState × DetectorResult :=
  match landmarks with
  | none =>
    (⟨s.duration, s.deadZone, s.movementThreshold, s.previousLandmarks, some timestamp,
        s.elapsedInactiveMs⟩,
      buildResult s.elapsedInactiveMs s.duration)
  | some lms =>
    match s.previousLandmarks with
    | none =>
      (⟨s.duration, s.deadZone, s.movementThreshold, some lms, some timestamp,
          s.elapsedInactiveMs⟩,
        ⟨.OK, ""⟩)
    | some prev =>
      let movementScore := computeMovementScore s.deadZone prev lms
      let delta := frameDelta s.lastUpdateTimestamp timestamp
      let elapsed :=
        if movementScore ≥ (s.movementThreshold : ℝ) then 0 else s.elapsedInactiveMs + delta
      (⟨s.duration, s.deadZone, s.movementThreshold, some lms, some timestamp, elapsed⟩,
        buildResult elapsed s.duration)

/-- `configure` of the sensitivity-tunable variant: a numeric
`duration` overwrites the duration; a numeric `sensitivity` recomputes
both derived tunables. -/
def configure (s : InactivityAltState) (duration sensitivity : Option ℚ) : InactivityAltState :=
  let s1 : InactivityAltState :=
    ⟨duration.getD s.duration, s.deadZone, s.movementThreshold, s.previousLandmarks,
      s.lastUpdateTimestamp, s.elapsedInactiveMs⟩
  match sensitivity with
  | none => s1
  | some sens =>
    ⟨s1.duration, lerp DEAD_ZONE_AT_LOW DEAD_ZONE_AT_HIGH sens,
      lerp MOVEMENT_THRESHOLD_AT_LOW MOVEMENT_THRESHOLD_AT_HIGH sens, s1.previousLandmarks,
      s1.lastUpdateTimestamp, s1.elapsedInactiveMs⟩

/-- `reset` of the sensitivity-tunable variant: tunables survive, the
snapshot, timestamp and accumulator are cleared. -/
def reset (s : InactivityAltState) : InactivityAltState :=
  ⟨s.duration, s.deadZone, s.movementThreshold, none, none, 0⟩

end InactivityDetectorAlt

-- ============================================================
-- Trace machinery: driving a detector over a list of frames
-- ============================================================

/-- Fold the fall detector over a frame list, keeping the state. -/
def runFall (s : FallState) (fs : List Frame) : FallState :=
  fs.foldl (fun s f => (FallDetector.update s f.1 f.2).1) s

/-- Fold the presence detector over a frame list, keeping the state. -/
def runPresence (s : PresenceState) (fs : List Frame) : PresenceState :=
  fs.foldl (fun s f => (PresenceDetector.update s f.1 f.2).1) s

/-- Fold the zone detector over a frame list, keeping the state. -/
def runZone (s : ZoneState) (fs : List Frame) : ZoneState :=
  fs.foldl (fun s f => (ZoneDetector.update s f.1 f.2).1) s

/-- Fold the fixed-threshold inactivity detector over a frame list. -/
noncomputable def runInactivity (s : InactivityState) (fs : List Frame) : InactivityState :=
  fs.foldl (fun s f => (InactivityDetector.update s f.1 f.2).1) s

/-- Fold the sensitivity-tunable inactivity detector over a frame list. -/
noncomputable def runInactivityAlt (s : InactivityAltState) (fs : List Frame) : InactivityAltState :=
  fs.foldl (fun s f => (InactivityDetectorAlt.update s f.1 f.2).1) s

/-- The per-frame results of the fall detector along a frame list. -/
def fallResults (s : FallState) : List Frame → List DetectorResult
  | [] => []
  | f :: fs =>
    let r := FallDetector.update s f.1 f.2
    r.2 :: fallResults r.1 fs

/-- The per-frame results of the zone detector along a frame list. -/
def zoneResults (s : ZoneState) : List Frame → List DetectorResult
  | [] => []
  | f :: fs =>
    let r := ZoneDetector.update s f.1 f.2
    r.2 :: zoneResults r.1 fs

/-- The per-frame results of the fixed-threshold inactivity detector
along a frame list. -/
noncomputable def inactivityResults (s : InactivityState) : List Frame → List DetectorResult
  | [] => []
  | f :: fs =>
    let r := InactivityDetector.update s f.1 f.2
    r.2 :: inactivityResults r.1 fs

/-- The per-frame results of the sensitivity-tunable inactivity
detector along a frame list. -/
noncomputable def inactivityAltResults (s : InactivityAltState) : List Frame → List DetectorResult
  | [] => []
  | f :: fs =>
    let r := InactivityDetectorAlt.update s f.1 f.2
    r.2 :: inactivityAltResults r.1 fs

/-- Timestamp of the last frame of a trace, with a default for the
empty trace. -/
def lastTS (fs : List Frame) (t0 : ℚ) : ℚ := (fs.map Prod.snd).getLastD t0

/-- Timestamps of a trace are non-decreasing, starting from a base
timestamp `t0` (the caller contract on monotone timestamps). -/
def MonoFrom (t0 : ℚ) (fs : List Frame) : Prop :=
  List.Chain' (fun a b => a ≤ b) (t0 :: fs.map Prod.snd)

/-- No frame of the trace triggers the movement-reset branch of the
fixed-threshold inactivity detector, tracking the previous snapshot
`prevPose` exactly as `update` stores it. -/
def NoMovementReset : Option (List Landmark) → List Frame → Prop
  | _, [] => True
  | prevPose, (none, _) :: fs => NoMovementReset prevPose fs
  | prevPose, (some lms, _) :: fs =>
    (match prevPose with
     | none => True
     | some prev => computeMovementScore DEAD_ZONE prev lms < (MOVEMENT_THRESHOLD : ℝ)) ∧
      NoMovementReset (some lms) fs

/-- Formalisation of the spec sentence behind claim C7 (not of the
source): the sum of exactly those frame deltas that belong to frames
where landmarks were present and the movement score fell below the
threshold, the delta of a frame being its timestamp minus the previous
frame's timestamp. -/
noncomputable def specAttributedSum :
    Option (List Landmark) → Option ℚ → List Frame → ℚ
  | prevPose, _, (none, t) :: fs => specAttributedSum prevPose (some t) fs
  | prevPose, prevT, (some lms, t) :: fs =>
    match prevPose with
    | none => specAttributedSum (some lms) (some t) fs
    | some prev =>
      let delta := frameDelta prevT t
      (if computeMovementScore DEAD_ZONE prev lms < (MOVEMENT_THRESHOLD : ℝ) then delta else 0) +
        specAttributedSum (some lms) (some t) fs
  | _, _, [] => 0

-- ============================================================
-- Concrete poses and traces used by the scenario claims
-- ============================================================

/-- Filler landmark for the concrete 33-entry test poses. -/
def filler : Landmark := ⟨1 / 2, 1 / 2, 0, 99 / 100⟩

/-- A 33-entry fallen pose: shoulder and hip midlines 0.02 apart
vertically (entries 11/12 and 23/24), visible bounding box 0.6 wide and
0.13 high (entries 0 and 1 are the extremes). -/
def fallenPose : List Landmark :=
  [
    ⟨1 / 5, 9 / 20, 0, 99 / 100⟩,
    ⟨4 / 5, 29 / 50, 0, 99 / 100⟩,
    ⟨1 / 2, 1 / 2, 0, 99 / 100⟩,
    ⟨1 / 2, 1 / 2, 0, 99 / 100⟩,
    ⟨1 / 2, 1 / 2, 0, 99 / 100⟩,
    ⟨1 / 2, 1 / 2, 0, 99 / 100⟩,
    ⟨1 / 2, 1 / 2, 0, 99 / 100⟩,
    ⟨1 / 2, 1 / 2, 0, 99 / 100⟩,
    ⟨1 / 2, 1 / 2, 0, 99 / 100⟩,
    ⟨1 / 2, 1 / 2, 0, 99 / 100⟩,
    ⟨1 / 2, 1 / 2, 0, 99 / 100⟩,
    ⟨2 / 5, 1 / 2, 0, 99 / 100⟩,
    ⟨3 / 5, 1 / 2, 0, 99 / 100⟩,
    ⟨1 / 2, 1 / 2, 0, 99 / 100⟩,
    ⟨1 / 2, 1 / 2, 0, 99 / 100⟩,
    ⟨1 / 2, 1 / 2, 0, 99 / 100⟩,
    ⟨1 / 2, 1 / 2, 0, 99 / 100⟩,
    ⟨1 / 2, 1 / 2, 0, 99 / 100⟩,
    ⟨1 / 2, 1 / 2, 0, 99 / 100⟩,
    ⟨1 / 2, 1 / 2, 0, 99 / 100⟩,
    ⟨1 / 2, 1 / 2, 0, 99 / 100⟩,
    ⟨1 / 2, 1 / 2, 0, 99 / 100⟩,
    ⟨1 / 2, 1 / 2, 0, 99 / 100⟩,
    ⟨2 / 5, 13 / 25, 0, 99 / 100⟩,
    ⟨3 / 5, 13 / 25, 0, 99 / 100⟩,
    ⟨1 / 2, 1 / 2, 0, 99 / 100⟩,
    ⟨1 / 2, 1 / 2, 0, 99 / 100⟩,
    ⟨1 / 2, 1 / 2, 0, 99 / 100⟩,
    ⟨1 / 2, 1 / 2, 0, 99 / 100⟩,
    ⟨1 / 2, 1 / 2, 0, 99 / 100⟩,
    ⟨1 / 2, 1 / 2, 0, 99 / 100⟩,
    ⟨1 / 2, 1 / 2, 0, 99 / 100⟩,
    ⟨1 / 2, 1 / 2, 0, 99 / 100⟩]

/-- A 33-entry standing pose: shoulder and hip midlines 0.25 apart, so
the posture test fails on its first condition. -/
def standingPose : List Landmark :=
  [
    ⟨1 / 2, 1 / 2, 0, 99 / 100⟩,
    ⟨1 / 2, 1 / 2, 0, 99 / 100⟩,
    ⟨1 / 2, 1 / 2, 0, 99 / 100⟩,
    ⟨1 / 2, 1 / 2, 0, 99 / 100⟩,
    ⟨1 / 2, 1 / 2, 0, 99 / 100⟩,
    ⟨1 / 2, 1 / 2, 0, 99 / 100⟩,
    ⟨1 / 2, 1 / 2, 0, 99 / 100⟩,
    ⟨1 / 2, 1 / 2, 0, 99 / 100⟩,
    ⟨1 / 2, 1 / 2, 0, 99 / 100⟩,
    ⟨1 / 2, 1 / 2, 0, 99 / 100⟩,
    ⟨1 / 2, 1 / 2, 0, 99 / 100⟩,
    ⟨2 / 5, 3 / 10, 0, 99 / 100⟩,
    ⟨3 / 5, 3 / 10, 0, 99 / 100⟩,
    ⟨1 / 2, 1 / 2, 0, 99 / 100⟩,
    ⟨1 / 2, 1 / 2, 0, 99 / 100⟩,
    ⟨1 / 2, 1 / 2, 0, 99 / 100⟩,
    ⟨1 / 2, 1 / 2, 0, 99 / 100⟩,
    ⟨1 / 2, 1 / 2, 0, 99 / 100⟩,
    ⟨1 / 2, 1 / 2, 0, 99 / 100⟩,
    ⟨1 / 2, 1 / 2, 0, 99 / 100⟩,
    ⟨1 / 2, 1 / 2, 0, 99 / 100⟩,
    ⟨1 / 2, 1 / 2, 0, 99 / 100⟩,
    ⟨1 / 2, 1 / 2, 0, 99 / 100⟩,
    ⟨2 / 5, 11 / 20, 0, 99 / 100⟩,
    ⟨3 / 5, 11 / 20, 0, 99 / 100⟩,
    ⟨1 / 2, 1 / 2, 0, 99 / 100⟩,
    ⟨1 / 2, 1 / 2, 0, 99 / 100⟩,
    ⟨1 / 2, 1 / 2, 0, 99 / 100⟩,
    ⟨1 / 2, 1 / 2, 0, 99 / 100⟩,
    ⟨1 / 2, 1 / 2, 0, 99 / 100⟩,
    ⟨1 / 2, 1 / 2, 0, 99 / 100⟩,
    ⟨1 / 2, 1 / 2, 0, 99 / 100⟩,
    ⟨1 / 2, 1 / 2, 0, 99 / 100⟩]

/-- A 33-entry pose whose hip midpoint (average of entries 23 and 24)
is exactly on the x1 boundary of the zone rectangle
`⟨0.2, 0.2, 0.8, 0.8⟩`. -/
def boundaryPose : List Landmark :=
  [
    ⟨1 / 2, 1 / 2, 0, 99 / 100⟩,
    ⟨1 / 2, 1 / 2, 0, 99 / 100⟩,
    ⟨1 / 2, 1 / 2, 0, 99 / 100⟩,
    ⟨1 / 2, 1 / 2, 0, 99 / 100⟩,
    ⟨1 / 2, 1 / 2, 0, 99 / 100⟩,
    ⟨1 / 2, 1 / 2, 0, 99 / 100⟩,
    ⟨1 / 2, 1 / 2, 0, 99 / 100⟩,
    ⟨1 / 2, 1 / 2, 0, 99 / 100⟩,
    ⟨1 / 2, 1 / 2, 0, 99 / 100⟩,
    ⟨1 / 2, 1 / 2, 0, 99 / 100⟩,
    ⟨1 / 2, 1 / 2, 0, 99 / 100⟩,
    ⟨1 / 2, 1 / 2, 0, 99 / 100⟩,
    ⟨1 / 2, 1 / 2, 0, 99 / 100⟩,
    ⟨1 / 2, 1 / 2, 0, 99 / 100⟩,
    ⟨1 / 2, 1 / 2, 0, 99 / 100⟩,
    ⟨1 / 2, 1 / 2, 0, 99 / 100⟩,
    ⟨1 / 2, 1 / 2, 0, 99 / 100⟩,
    ⟨1 / 2, 1 / 2, 0, 99 / 100⟩,
    ⟨1 / 2, 1 / 2, 0, 99 / 100⟩,
    ⟨1 / 2, 1 / 2, 0, 99 / 100⟩,
    ⟨1 / 2, 1 / 2, 0, 99 / 100⟩,
    ⟨1 / 2, 1 / 2, 0, 99 / 100⟩,
    ⟨1 / 2, 1 / 2, 0, 99 / 100⟩,
    ⟨3 / 20, 1 / 2, 0, 99 / 100⟩,
    ⟨1 / 4, 1 / 2, 0, 99 / 100⟩,
    ⟨1 / 2, 1 / 2, 0, 99 / 100⟩,
    ⟨1 / 2, 1 / 2, 0, 99 / 100⟩,
    ⟨1 / 2, 1 / 2, 0, 99 / 100⟩,
    ⟨1 / 2, 1 / 2, 0, 99 / 100⟩,
    ⟨1 / 2, 1 / 2, 0, 99 / 100⟩,
    ⟨1 / 2, 1 / 2, 0, 99 / 100⟩,
    ⟨1 / 2, 1 / 2, 0, 99 / 100⟩,
    ⟨1 / 2, 1 / 2, 0, 99 / 100⟩]

/-- A 33-entry pose whose hip midpoint x is 0.1, outside the zone
rectangle `⟨0.2, 0.2, 0.8, 0.8⟩`. -/
def outsidePose : List Landmark :=
  [
    ⟨1 / 2, 1 / 2, 0, 99 / 100⟩,
    ⟨1 / 2, 1 / 2, 0, 99 / 100⟩,
    ⟨1 / 2, 1 / 2, 0, 99 / 100⟩,
    ⟨1 / 2, 1 / 2, 0, 99 / 100⟩,
    ⟨1 / 2, 1 / 2, 0, 99 / 100⟩,
    ⟨1 / 2, 1 / 2, 0, 99 / 100⟩,
    ⟨1 / 2, 1 / 2, 0, 99 / 100⟩,
    ⟨1 / 2, 1 / 2, 0, 99 / 100⟩,
    ⟨1 / 2, 1 / 2, 0, 99 / 100⟩,
    ⟨1 / 2, 1 / 2, 0, 99 / 100⟩,
    ⟨1 / 2, 1 / 2, 0, 99 / 100⟩,
    ⟨1 / 2, 1 / 2, 0, 99 / 100⟩,
    ⟨1 / 2, 1 / 2, 0, 99 / 100⟩,
    ⟨1 / 2, 1 / 2, 0, 99 / 100⟩,
    ⟨1 / 2, 1 / 2, 0, 99 / 100⟩,
    ⟨1 / 2, 1 / 2, 0, 99 / 100⟩,
    ⟨1 / 2, 1 / 2, 0, 99 / 100⟩,
    ⟨1 / 2, 1 / 2, 0, 99 / 100⟩,
    ⟨1 / 2, 1 / 2, 0, 99 / 100⟩,
    ⟨1 / 2, 1 / 2, 0, 99 / 100⟩,
    ⟨1 / 2, 1 / 2, 0, 99 / 100⟩,
    ⟨1 / 2, 1 / 2, 0, 99 / 100⟩,
    ⟨1 / 2, 1 / 2, 0, 99 / 100⟩,
    ⟨1 / 20, 1 / 2, 0, 99 / 100⟩,
    ⟨3 / 20, 1 / 2, 0, 99 / 100⟩,
    ⟨1 / 2, 1 / 2, 0, 99 / 100⟩,
    ⟨1 / 2, 1 / 2, 0, 99 / 100⟩,
    ⟨1 / 2, 1 / 2, 0, 99 / 100⟩,
    ⟨1 / 2, 1 / 2, 0, 99 / 100⟩,
    ⟨1 / 2, 1 / 2, 0, 99 / 100⟩,
    ⟨1 / 2, 1 / 2, 0, 99 / 100⟩,
    ⟨1 / 2, 1 / 2, 0, 99 / 100⟩,
    ⟨1 / 2, 1 / 2, 0, 99 / 100⟩]

/-- An invisible filler landmark (visibility 0). -/
def hiddenLm : Landmark := ⟨1 / 2, 1 / 2, 0, 0⟩

/-- A 33-entry pose with one fully visible landmark at x; the other 32
landmarks are invisible.  Used to drive the movement score with a
single axis-aligned displacement. -/
def probePose (x : ℚ) : List Landmark := ⟨x, 1 / 2, 0, 1⟩ :: List.replicate 32 hiddenLm

/-- The zone rectangle of the boundary scenario. -/
def testRect : ZoneRect := ⟨1 / 5, 1 / 5, 4 / 5, 4 / 5⟩

/-- The fall detector's accumulated elapsed time read at time `t`:
`t` minus the stored fall onset, 0 when no timer is running. -/
def fallElapsed (s : FallState) (t : ℚ) : ℚ :=
  match s.fallenSince with
  | none => 0
  | some t0 => t - t0

/-- Vocabulary of the amended claim C10: the squared displacement
between two index-aligned landmarks stays below the square of the
stricter dead zone 0.002, so both implementations filter the pair. -/
def closePair (p c : Landmark) : Bool :=
  decide ((c.x - p.x) * (c.x - p.x) + (c.y - p.y) * (c.y - p.y) < DEAD_ZONE * DEAD_ZONE)

/-- Vocabulary of the amended claim C10: every present frame of the
trace displaces every landmark by less than the 0.002 dead zone
relative to the previous present frame. -/
def smallMoves : Option (List Landmark) → List Frame → Bool
  | _, [] => true
  | prevPose, (none, _) :: fs => smallMoves prevPose fs
  | prevPose, (some lms, _) :: fs =>
    (match prevPose with
     | none => true
     | some prev => (prev.zip lms).all fun pc => closePair pc.1 pc.2) &&
      smallMoves (some lms) fs

-- ============================================================
-- Helper lemmas
-- ============================================================

lemma FallDetector.update_holdDuration (s : FallState) (lo : Option (List Landmark)) (t : ℚ) :
    ((FallDetector.update s lo t).1).holdDuration = s.holdDuration := by
  cases lo with
  | none => rfl
  | some lms =>
    simp only [update]
    split
    · split <;> rfl
    · rfl

lemma runFall_holdDuration (s : FallState) (fs : List Frame) :
    (runFall s fs).holdDuration = s.holdDuration := by
  induction fs generalizing s with
  | nil => rfl
  | cons f fs ih =>
    simp only [runFall, List.foldl_cons] at *
    rw [ih, FallDetector.update_holdDuration]

lemma InactivityDetectorAlt.update_config (s : InactivityAltState)
    (lo : Option (List Landmark)) (t : ℚ) :
    ((InactivityDetectorAlt.update s lo t).1).duration = s.duration ∧
      ((InactivityDetectorAlt.update s lo t).1).deadZone = s.deadZone ∧
      ((InactivityDetectorAlt.update s lo t).1).movementThreshold = s.movementThreshold := by
  cases lo with
  | none => exact ⟨rfl, rfl, rfl⟩
  | some lms =>
    cases h : s.previousLandmarks with
    | none => simp [update, h]
    | some prev => simp [update, h]

lemma runInactivityAlt_config (s : InactivityAltState) (fs : List Frame) :
    (runInactivityAlt s fs).duration = s.duration ∧
      (runInactivityAlt s fs).deadZone = s.deadZone ∧
      (runInactivityAlt s fs).movementThreshold = s.movementThreshold := by
  induction fs generalizing s with
  | nil => exact ⟨rfl, rfl, rfl⟩
  | cons f fs ih =>
    simp only [runInactivityAlt, List.foldl_cons] at *
    obtain ⟨h1, h2, h3⟩ := ih ((InactivityDetectorAlt.update s f.1 f.2).1)
    obtain ⟨g1, g2, g3⟩ := InactivityDetectorAlt.update_config s f.1 f.2
    exact ⟨h1.trans g1, h2.trans g2, h3.trans g3⟩

/-- `lerp` hits the low endpoint at sensitivity 1. -/
lemma lerp_at_low (lo hi : ℚ) : lerp lo hi 1 = lo := by
  simp [lerp, SENSITIVITY_MIN, SENSITIVITY_MAX]

/-- `lerp` hits the high endpoint at sensitivity 10. -/
lemma lerp_at_high (lo hi : ℚ) : lerp lo hi 10 = hi := by
  norm_num [lerp, SENSITIVITY_MIN, SENSITIVITY_MAX]

-- ============================================================
-- Claim theorems
-- ============================================================

/-- C1 counterexample: for the `ZoneDetector` with a previously set
zone rectangle, `reset()` followed by `update(null, 0)` does not return
the same `DetectorResult` as the first `update(null, 0)` of a freshly
constructed detector with the same configuration (`breachDuration`
3000): the former answers "Inside zone", the latter "No zone set",
because `reset` keeps the zone rectangle. -/
theorem C1_counterexample :
    ZoneDetector.update
        (ZoneDetector.reset (ZoneDetector.setZoneRect (ZoneDetector.init 3000) (some testRect)))
        none 0 ≠
      ZoneDetector.update (ZoneDetector.init 3000) none 0 := by
  norm_num [ZoneDetector.update, ZoneDetector.reset, ZoneDetector.setZoneRect, ZoneDetector.init,
    frameDelta]
  intro h
  simp at h

/-- C1 amended: for the fall, presence and both inactivity detectors,
`reset()` followed by `update` returns the same result and state as the
first `update` of a freshly constructed detector with the same
configuration; for the `ZoneDetector`, `reset` keeps the zone
rectangle, so the equivalent fresh detector is one on which
`setZoneRect` was called with the same previously set rectangle. -/
theorem C1_reset_behaves_like_fresh :
    (∀ (s : FallState) (lo : Option (List Landmark)) (t : ℚ),
        FallDetector.update (FallDetector.reset s) lo t =
          FallDetector.update (FallDetector.init s.holdDuration) lo t) ∧
      (∀ (s : PresenceState) (lo : Option (List Landmark)) (t : ℚ),
        PresenceDetector.update (PresenceDetector.reset s) lo t =
          PresenceDetector.update (PresenceDetector.init s.timeout) lo t) ∧
      (∀ (s : InactivityState) (lo : Option (List Landmark)) (t : ℚ),
        InactivityDetector.update (InactivityDetector.reset s) lo t =
          InactivityDetector.update (InactivityDetector.init s.duration) lo t) ∧
      (∀ (d : ℚ) (sens : Option ℚ) (fs : List Frame) (lo : Option (List Landmark)) (t : ℚ),
        InactivityDetectorAlt.update
            (InactivityDetectorAlt.reset (runInactivityAlt (InactivityDetectorAlt.init d sens) fs))
            lo t =
          InactivityDetectorAlt.update (InactivityDetectorAlt.init d sens) lo t) ∧
      (∀ (s : ZoneState) (lo : Option (List Landmark)) (t : ℚ),
        ZoneDetector.update (ZoneDetector.reset s) lo t =
          ZoneDetector.update
            (ZoneDetector.setZoneRect (ZoneDetector.init s.breachDuration) s.zoneRect) lo t) := by
  refine ⟨fun s lo t => rfl, fun s lo t => rfl, fun s lo t => rfl, ?_, fun s lo t => rfl⟩
  intro d sens fs lo t
  obtain ⟨h1, h2, h3⟩ := runInactivityAlt_config (InactivityDetectorAlt.init d sens) fs
  show InactivityDetectorAlt.update
      ⟨(runInactivityAlt (InactivityDetectorAlt.init d sens) fs).duration,
        (runInactivityAlt (InactivityDetectorAlt.init d sens) fs).deadZone,
        (runInactivityAlt (InactivityDetectorAlt.init d sens) fs).movementThreshold,
        none, none, 0⟩ lo t = _
  rw [h1, h2, h3]
  rfl

/-- C3: in the sensitivity-tunable inactivity detector both tunables
come from the sensitivity scalar by linear interpolation between the
low (sensitivity 1) and high (sensitivity 10) endpoint constants;
`configure` with a sensitivity recomputes both, and construction
without a sensitivity yields exactly the sensitivity-1 values. -/
theorem C3_sensitivity_interpolation :
    (∀ lo hi s : ℚ, lerp lo hi s = lo + (s - 1) / 9 * (hi - lo)) ∧
      (∀ lo hi : ℚ, lerp lo hi 1 = lo ∧ lerp lo hi 10 = hi) ∧
      (∀ d sens : ℚ,
        (InactivityDetectorAlt.init d (some sens)).deadZone =
            lerp DEAD_ZONE_AT_LOW DEAD_ZONE_AT_HIGH sens ∧
          (InactivityDetectorAlt.init d (some sens)).movementThreshold =
            lerp MOVEMENT_THRESHOLD_AT_LOW MOVEMENT_THRESHOLD_AT_HIGH sens) ∧
      (∀ (s : InactivityAltState) (d : Option ℚ) (sens : ℚ),
        (InactivityDetectorAlt.configure s d (some sens)).deadZone =
            lerp DEAD_ZONE_AT_LOW DEAD_ZONE_AT_HIGH sens ∧
          (InactivityDetectorAlt.configure s d (some sens)).movementThreshold =
            lerp MOVEMENT_THRESHOLD_AT_LOW MOVEMENT_THRESHOLD_AT_HIGH sens) ∧
      (∀ d : ℚ,
        InactivityDetectorAlt.init d none = InactivityDetectorAlt.init d (some 1) ∧
          (InactivityDetectorAlt.init d none).deadZone = DEAD_ZONE_AT_LOW ∧
          (InactivityDetectorAlt.init d none).movementThreshold = MOVEMENT_THRESHOLD_AT_LOW) := by
  refine ⟨?_, ?_, fun d sens => ⟨rfl, rfl⟩, fun s d sens => ⟨rfl, rfl⟩, fun d => ⟨rfl, ?_, ?_⟩⟩
  · intro lo hi s
    simp only [lerp, SENSITIVITY_MIN, SENSITIVITY_MAX]
    ring
  · exact fun lo hi => ⟨lerp_at_low lo hi, lerp_at_high lo hi⟩
  · show lerp DEAD_ZONE_AT_LOW DEAD_ZONE_AT_HIGH 1 = DEAD_ZONE_AT_LOW
    exact lerp_at_low _ _
  · show lerp MOVEMENT_THRESHOLD_AT_LOW MOVEMENT_THRESHOLD_AT_HIGH 1 = MOVEMENT_THRESHOLD_AT_LOW
    exact lerp_at_low _ _




lemma movementScoreAux_hidden (dz : ℚ) (sc : ℝ) (n : ℕ) :
    movementScoreAux dz sc (List.replicate n hiddenLm) (List.replicate n hiddenLm) = sc := by
  induction n with
  | zero => rfl
  | succ n ih =>
    rw [List.replicate_succ]
    simp only [movementScoreAux]
    rw [if_pos (by norm_num [hiddenLm] : min hiddenLm.visibility hiddenLm.visibility < (1 : ℚ)/2)]
    exact ih

lemma sqrt_ten_thousand : Real.sqrt 10000 = 100 := by
  rw [show (10000 : ℝ) = 100^2 by norm_num]
  exact Real.sqrt_sq (by norm_num)

/-- The single-probe displacement of 0.01 clears any dead zone of at
most 0.01, so the movement score of the probe poses is exactly 0.01. -/
lemma score_probe_move (dz : ℚ) (h : (dz : ℝ) ≤ 1/100) :
    computeMovementScore dz (probePose (1/2)) (probePose (51/100)) = 1/100 := by
  rw [computeMovementScore, probePose, probePose, movementScoreAux]
  norm_num
  rw [if_neg ?hc]
  case hc =>
    rw [sqrt_ten_thousand, not_lt]
    calc (dz : ℝ) ≤ 1/100 := h
    _ = (100 : ℝ)⁻¹ := by norm_num
  rw [movementScoreAux_hidden, sqrt_ten_thousand]
  norm_num

/-- Pairs with squared displacement below the squared dead zone are
filtered, whatever the visibility, for any dead zone at least 0.002. -/
lemma movementScoreAux_small (dz : ℚ) (hdz : DEAD_ZONE ≤ dz) :
    ∀ ps cs : List Landmark, ((ps.zip cs).all fun pc => closePair pc.1 pc.2) = true →
      ∀ sc : ℝ, movementScoreAux dz sc ps cs = sc := by
  intro ps
  induction ps with
  | nil => intro cs _ sc; cases cs <;> rfl
  | cons p ps ih =>
    intro cs hall sc
    cases cs with
    | nil => rfl
    | cons c cs =>
      simp only [List.zip_cons_cons, List.all_cons, Bool.and_eq_true] at hall
      obtain ⟨hpc, hrest⟩ := hall
      have hq : (c.x - p.x) * (c.x - p.x) + (c.y - p.y) * (c.y - p.y) <
          DEAD_ZONE * DEAD_ZONE := by
        simpa [closePair] using hpc
      simp only [movementScoreAux]
      by_cases hv : min p.visibility c.visibility < (1 : ℚ)/2
      · rw [if_pos hv]
        exact ih cs hrest sc
      · rw [if_neg hv, if_pos ?hdist]
        case hdist =>
          have hdz0 : (0 : ℚ) < DEAD_ZONE := by norm_num [DEAD_ZONE]
          have hdzr : (0 : ℝ) < (dz : ℝ) := by
            have : (0 : ℚ) < dz := lt_of_lt_of_le hdz0 hdz
            exact_mod_cast this
          rw [Real.sqrt_lt' hdzr]
          have hcast : (((c.x - p.x) * (c.x - p.x) + (c.y - p.y) * (c.y - p.y) : ℚ) : ℝ) <
              ((DEAD_ZONE : ℚ) : ℝ) * ((DEAD_ZONE : ℚ) : ℝ) := by
            exact_mod_cast hq
          have hdzc : ((DEAD_ZONE : ℚ) : ℝ) ≤ (dz : ℝ) := by exact_mod_cast hdz
          have hdz0c : (0 : ℝ) < ((DEAD_ZONE : ℚ) : ℝ) := by exact_mod_cast hdz0
          nlinarith [hcast, hdzc, hdz0c]
        exact ih cs hrest sc

/-- A landmark list zipped with itself consists of close pairs. -/
lemma zip_self_close (l : List Landmark) :
    ((l.zip l).all fun pc => closePair pc.1 pc.2) = true := by
  induction l with
  | nil => rfl
  | cons a l ih =>
    simp only [List.zip_cons_cons, List.all_cons, Bool.and_eq_true]
    exact ⟨by norm_num [closePair, DEAD_ZONE], ih⟩

/-- The movement score of a pose against itself is (the starting)
score, for any dead zone at least 0.002. -/
lemma computeMovementScore_self (dz : ℚ) (hdz : DEAD_ZONE ≤ dz) (l : List Landmark) :
    computeMovementScore dz l l = 0 :=
  movementScoreAux_small dz hdz l l (zip_self_close l) 0

/-- C2 counterexample: an inactivity accumulator of 1500 ms with
duration 30000 is reported as "2s" — `(1.5).toFixed(0)` rounds to
nearest — while the claim requires the floored value 1. -/
theorem C2_counterexample :
    buildResult 1500 30000 = ⟨.WARNING, "No movement for 2s"⟩ ∧
      ("No movement for 2s" : String) ≠
        "No movement for " ++ toString ⌊(1500 : ℚ) / 1000⌋ ++ "s" := by
  constructor
  · norm_num [buildResult, toFixed0, Int.floor_eq_iff]
    decide
  · rw [show ⌊(1500 : ℚ) / 1000⌋ = 1 by norm_num [Int.floor_eq_iff]]
    decide

/-- C2 amended: for a nonnegative accumulator `a` and positive duration
`d`, `buildResult` yields OK with empty message at `a = 0`, WARNING for
`0 < a < d` and ALERT for `a ≥ d`; the WARNING and ALERT messages
report `(a/1000).toFixed(0)` seconds, i.e. rounded to the nearest whole
second with ties up (1500 ms reads "2s"), not floored. -/
theorem C2_inactivity_result (a d : ℚ) (_ha : 0 ≤ a) (hd : 0 < d) :
    (a = 0 → buildResult a d = ⟨.OK, ""⟩) ∧
      (0 < a → a < d →
        buildResult a d =
          ⟨.WARNING, "No movement for " ++ toString (toFixed0 (a / 1000)) ++ "s"⟩) ∧
      (d ≤ a →
        buildResult a d =
          ⟨.ALERT, "Inactive for " ++ toString (toFixed0 (a / 1000)) ++ "s"⟩) := by
  refine ⟨fun h0 => ?_, fun hpos hlt => ?_, fun hge => ?_⟩
  · rw [h0]
    simp [buildResult]
  · rw [buildResult, if_neg (by linarith), if_neg (by exact not_le.mpr hlt)]
  · rw [buildResult, if_neg (by linarith), if_pos hge]

/-- C2 witness: the amended statement at accumulator 1500, duration
30000. -/
theorem C2_witness :
    (0 : ℚ) ≤ 1500 ∧ (0 : ℚ) < 30000 ∧ (0 : ℚ) < 1500 ∧ (1500 : ℚ) < 30000 ∧
      buildResult 1500 30000 =
        ⟨.WARNING, "No movement for " ++ toString (toFixed0 ((1500 : ℚ) / 1000)) ++ "s"⟩ :=
  ⟨by norm_num, by norm_num, by norm_num, by norm_num,
    (C2_inactivity_result 1500 30000 (by norm_num) (by norm_num)).2.1 (by norm_num) (by norm_num)⟩

/-- C4 counterexample: with `timeout = 0`, the very first
`update(null, 0)` leaves the absence accumulator at 0 yet returns
ALERT, because the source checks `accumulator >= timeout` before the
zero test, while the claim requires OK with an empty message. -/
theorem C4_counterexample :
    (PresenceDetector.update (PresenceDetector.init 0) none 0).1.absenceElapsedMs = 0 ∧
      (PresenceDetector.update (PresenceDetector.init 0) none 0).2 =
        ⟨.ALERT, "Not seen for 0s"⟩ ∧
      (⟨.ALERT, "Not seen for 0s"⟩ : DetectorResult) ≠ ⟨.OK, ""⟩ := by
  refine ⟨?_, ?_, by decide⟩
  · norm_num [PresenceDetector.update, PresenceDetector.init, frameDelta]
  · norm_num [PresenceDetector.update, PresenceDetector.init, frameDelta]
    decide

/-- C4 amended: for every presence state and absent-landmarks update,
with `a` the accumulator after adding the frame delta: the new state
stores `a` and the timestamp; the result is ALERT when `a ≥ timeout`
(this case wins even at `a = 0` when `timeout ≤ 0`), otherwise WARNING
when `0 < a`, otherwise OK with empty message; WARNING and ALERT
messages report `floor(a/1000)` whole seconds; a present frame resets
the accumulator to 0 with OK "Person visible". -/
theorem C4_presence_result (s : PresenceState) (t : ℚ) :
    (∀ lms : List Landmark,
        PresenceDetector.update s (some lms) t =
          (⟨s.timeout, 0, some t⟩, ⟨.OK, "Person visible"⟩)) ∧
      ((PresenceDetector.update s none t).1 =
        ⟨s.timeout, s.absenceElapsedMs + frameDelta s.lastUpdateTimestamp t, some t⟩) ∧
      (s.timeout ≤ s.absenceElapsedMs + frameDelta s.lastUpdateTimestamp t →
        (PresenceDetector.update s none t).2 =
          ⟨.ALERT, "Not seen for " ++
            toString ⌊(s.absenceElapsedMs + frameDelta s.lastUpdateTimestamp t) / 1000⌋ ++ "s"⟩) ∧
      (s.absenceElapsedMs + frameDelta s.lastUpdateTimestamp t < s.timeout →
        0 < s.absenceElapsedMs + frameDelta s.lastUpdateTimestamp t →
        (PresenceDetector.update s none t).2 =
          ⟨.WARNING, "Not seen for " ++
            toString ⌊(s.absenceElapsedMs + frameDelta s.lastUpdateTimestamp t) / 1000⌋ ++ "s"⟩) ∧
      (s.absenceElapsedMs + frameDelta s.lastUpdateTimestamp t < s.timeout →
        s.absenceElapsedMs + frameDelta s.lastUpdateTimestamp t ≤ 0 →
        (PresenceDetector.update s none t).2 = ⟨.OK, ""⟩) := by
  refine ⟨fun lms => rfl, ?_, ?_, ?_, ?_⟩
  · simp only [PresenceDetector.update]
    split_ifs <;> rfl
  · intro h
    simp only [PresenceDetector.update]
    rw [if_pos h]
  · intro h1 h2
    simp only [PresenceDetector.update]
    rw [if_neg (not_le.mpr h1), if_pos h2]
  · intro h1 h2
    simp only [PresenceDetector.update]
    rw [if_neg (not_le.mpr h1), if_neg (not_lt.mpr h2)]

/-- C4 witness: the amended statement at state
`⟨timeout 10000, accumulator 0, last update 0⟩` and an absent frame at
t = 500 (the WARNING case). -/
theorem C4_witness :
    ((⟨10000, 0, some 0⟩ : PresenceState).absenceElapsedMs +
          frameDelta (⟨10000, 0, some 0⟩ : PresenceState).lastUpdateTimestamp 500 <
        (⟨10000, 0, some 0⟩ : PresenceState).timeout) ∧
      (PresenceDetector.update (⟨10000, 0, some 0⟩ : PresenceState) none 500).2 =
        ⟨.WARNING, "Not seen for " ++
          toString ⌊((⟨10000, 0, some 0⟩ : PresenceState).absenceElapsedMs +
            frameDelta (⟨10000, 0, some 0⟩ : PresenceState).lastUpdateTimestamp 500) / 1000⌋ ++
          "s"⟩ :=
  ⟨by norm_num [frameDelta],
    (C4_presence_result ⟨10000, 0, some 0⟩ 500).2.2.2.1 (by norm_num [frameDelta])
      (by norm_num [frameDelta])⟩



lemma fall_update_fallen (s : FallState) (τ : ℚ) (lms : List Landmark) (t : ℚ)
    (hsince : s.fallenSince = some τ) (hck : FallDetector.checkFallenPosture lms = true) :
    FallDetector.update s (some lms) t =
      (⟨s.holdDuration, some τ⟩,
        if t - τ ≥ s.holdDuration then
          ⟨.ALERT, "Fall detected (" ++ toFixed1 ((t - τ) / 1000) ++ "s)"⟩
        else ⟨.WARNING, "Possible fall (" ++ toFixed1 ((t - τ) / 1000) ++ "s)"⟩) := by
  simp only [FallDetector.update, hck, hsince, Option.getD_some, if_true]
  split_ifs <;> rfl

lemma fall_update_not_fallen (s : FallState) (lms : List Landmark) (t : ℚ)
    (hck : FallDetector.checkFallenPosture lms = false) :
    FallDetector.update s (some lms) t = (⟨s.holdDuration, none⟩, ⟨.OK, ""⟩) := by
  simp only [FallDetector.update, hck, Bool.false_eq_true, if_false]

/-- C5: with `holdDuration = 2000`, a fallen pose held at timestamps
0, 500, ..., 2000 yields WARNING on every frame before 2000 and ALERT at
2000; on a running timer started at `τ` a fallen frame at `t` keeps the
start `τ`, reports elapsed `t − τ`, and is ALERT exactly when
`t − τ ≥ holdDuration`; a non-fallen frame (the standing pose fails the
posture test) or a null frame clears the timer, and the next fallen
frame restarts the timer at its own timestamp with elapsed 0. -/
theorem C5_fall_hold_scenario :
    ((fallResults (FallDetector.init 2000)
          [(some fallenPose, 0), (some fallenPose, 500), (some fallenPose, 1000),
            (some fallenPose, 1500), (some fallenPose, 2000)]).map DetectorResult.status =
        [.WARNING, .WARNING, .WARNING, .WARNING, .ALERT]) ∧
      FallDetector.checkFallenPosture fallenPose = true ∧
      FallDetector.checkFallenPosture standingPose = false ∧
      (∀ (s : FallState) (τ : ℚ) (lms : List Landmark) (t : ℚ),
        s.fallenSince = some τ → FallDetector.checkFallenPosture lms = true →
          FallDetector.update s (some lms) t =
            (⟨s.holdDuration, some τ⟩,
              if t - τ ≥ s.holdDuration then
                ⟨.ALERT, "Fall detected (" ++ toFixed1 ((t - τ) / 1000) ++ "s)"⟩
              else ⟨.WARNING, "Possible fall (" ++ toFixed1 ((t - τ) / 1000) ++ "s)"⟩)) ∧
      (∀ (s : FallState) (τ : ℚ) (lms : List Landmark) (t : ℚ),
        s.fallenSince = some τ → FallDetector.checkFallenPosture lms = true →
          ((FallDetector.update s (some lms) t).2.status = .ALERT ↔
            t - τ ≥ s.holdDuration)) ∧
      (∀ (s : FallState) (lms : List Landmark) (t : ℚ),
        FallDetector.checkFallenPosture lms = false →
          FallDetector.update s (some lms) t = (⟨s.holdDuration, none⟩, ⟨.OK, ""⟩)) ∧
      (∀ (s : FallState) (t : ℚ),
        FallDetector.update s none t = (⟨s.holdDuration, none⟩, ⟨.OK, ""⟩)) ∧
      (∀ (s : FallState) (lms : List Landmark) (t : ℚ),
        s.fallenSince = none → FallDetector.checkFallenPosture lms = true →
          (FallDetector.update s (some lms) t).1 = ⟨s.holdDuration, some t⟩ ∧
            fallElapsed (FallDetector.update s (some lms) t).1 t = 0) := by
  refine ⟨?_, ?_, ?_, fun s τ lms t hsince hck => fall_update_fallen s τ lms t hsince hck,
    ?_, fun s lms t hck => fall_update_not_fallen s lms t hck, fun s t => rfl, ?_⟩
  · norm_num [fallResults, FallDetector.update, FallDetector.init,
      FallDetector.checkFallenPosture, fallenPose, visibleBBox, bboxStep, defaultLandmark,
      LEFT_SHOULDER, RIGHT_SHOULDER, LEFT_HIP, RIGHT_HIP, min_def, max_def, abs_lt]
  · norm_num [FallDetector.checkFallenPosture, fallenPose, visibleBBox, bboxStep,
      defaultLandmark, LEFT_SHOULDER, RIGHT_SHOULDER, LEFT_HIP, RIGHT_HIP, min_def, max_def,
      abs_lt]
  · norm_num [FallDetector.checkFallenPosture, standingPose, visibleBBox, bboxStep,
      defaultLandmark, LEFT_SHOULDER, RIGHT_SHOULDER, LEFT_HIP, RIGHT_HIP, min_def, max_def]
  · intro s τ lms t hsince hck
    rw [fall_update_fallen s τ lms t hsince hck]
    by_cases hge : t - τ ≥ s.holdDuration
    · simp [hge]
    · simp [hge]
  · intro s lms t hsince hck
    simp only [FallDetector.update, hck, hsince, Option.getD_none, if_true]
    constructor
    · split_ifs <;> rfl
    · split_ifs <;> simp [fallElapsed]

/-- C5 witness: the running-timer conjunct at the state
`⟨holdDuration 2000, fallenSince 0⟩`, a fallen frame at t = 500. -/
theorem C5_witness :
    ((⟨2000, some 0⟩ : FallState).fallenSince = some 0) ∧
      FallDetector.checkFallenPosture fallenPose = true ∧
      FallDetector.update (⟨2000, some 0⟩ : FallState) (some fallenPose) 500 =
        (⟨(⟨2000, some 0⟩ : FallState).holdDuration, some 0⟩,
          if (500 : ℚ) - 0 ≥ (⟨2000, some 0⟩ : FallState).holdDuration then
            ⟨.ALERT, "Fall detected (" ++ toFixed1 (((500 : ℚ) - 0) / 1000) ++ "s)"⟩
          else ⟨.WARNING, "Possible fall (" ++ toFixed1 (((500 : ℚ) - 0) / 1000) ++ "s)"⟩) :=
  ⟨rfl,
    by
      norm_num [FallDetector.checkFallenPosture, fallenPose, visibleBBox, bboxStep,
        defaultLandmark, LEFT_SHOULDER, RIGHT_SHOULDER, LEFT_HIP, RIGHT_HIP, min_def, max_def,
        abs_lt],
    C5_fall_hold_scenario.2.2.2.1 ⟨2000, some 0⟩ 0 fallenPose 500 rfl
      (by
        norm_num [FallDetector.checkFallenPosture, fallenPose, visibleBBox, bboxStep,
          defaultLandmark, LEFT_SHOULDER, RIGHT_SHOULDER, LEFT_HIP, RIGHT_HIP, min_def,
          max_def, abs_lt])⟩

lemma zone_update_not_inside (s : ZoneState) (rect : ZoneRect) (lo : Option (List Landmark))
    (t : ℚ) (hrect : s.zoneRect = some rect)
    (hout : ∀ lms, lo = some lms → ZoneDetector.checkInside (some rect) lms = false) :
    ZoneDetector.update s lo t =
      (⟨s.breachDuration, some rect,
          s.outsideElapsedMs + frameDelta s.lastUpdateTimestamp t, some t⟩,
        if s.outsideElapsedMs + frameDelta s.lastUpdateTimestamp t ≤ 0 then
          ⟨.OK, "Inside zone"⟩
        else if s.outsideElapsedMs + frameDelta s.lastUpdateTimestamp t ≥ s.breachDuration then
          ⟨.ALERT, "Outside zone for " ++
            toFixed1 ((s.outsideElapsedMs + frameDelta s.lastUpdateTimestamp t) / 1000) ++ "s"⟩
        else
          ⟨.WARNING, "Leaving zone (" ++
            toFixed1 ((s.outsideElapsedMs + frameDelta s.lastUpdateTimestamp t) / 1000) ++
            "s)"⟩) := by
  cases lo with
  | none =>
    simp only [ZoneDetector.update, hrect, Bool.false_eq_true, if_false, Bool.false_or,
      decide_eq_true_eq]
    split_ifs <;> rfl
  | some lms =>
    have hc := hout lms rfl
    simp only [ZoneDetector.update, hrect, hc, Bool.false_eq_true, if_false, Bool.false_or,
      decide_eq_true_eq]
    split_ifs <;> rfl

lemma zone_update_inside (s : ZoneState) (rect : ZoneRect) (lms : List Landmark) (t : ℚ)
    (hrect : s.zoneRect = some rect)
    (hin : ZoneDetector.checkInside (some rect) lms = true) :
    ZoneDetector.update s (some lms) t =
      (⟨s.breachDuration, some rect, 0, some t⟩, ⟨.OK, "Inside zone"⟩) := by
  simp only [ZoneDetector.update, hrect, hin, if_true, Bool.true_or]

/-- C6: a hip midpoint exactly on the zone boundary is inside
(inclusive bound) and yields OK; null landmarks count as outside; while
outside (null frame or outside pose) the accumulator grows by the frame
delta, giving OK at accumulator ≤ 0, ALERT once the accumulator reaches
`breachDuration` (when positive) and WARNING in between, seconds shown
to one decimal; an inside frame zeroes the accumulator. -/
theorem C6_zone_boundary_and_breach :
    ZoneDetector.checkInside (some testRect) boundaryPose = true ∧
      (ZoneDetector.update (⟨3000, some testRect, 0, some 0⟩ : ZoneState)
          (some boundaryPose) 500 =
        (⟨3000, some testRect, 0, some 500⟩, ⟨.OK, "Inside zone"⟩)) ∧
      ZoneDetector.checkInside (some testRect) outsidePose = false ∧
      (∀ (s : ZoneState) (rect : ZoneRect) (lms : List Landmark) (t : ℚ),
        s.zoneRect = some rect → ZoneDetector.checkInside (some rect) lms = true →
          ZoneDetector.update s (some lms) t =
            (⟨s.breachDuration, some rect, 0, some t⟩, ⟨.OK, "Inside zone"⟩)) ∧
      (∀ (s : ZoneState) (rect : ZoneRect) (lo : Option (List Landmark)) (t : ℚ),
        s.zoneRect = some rect →
          (∀ lms, lo = some lms → ZoneDetector.checkInside (some rect) lms = false) →
          (ZoneDetector.update s lo t).1 =
            ⟨s.breachDuration, some rect,
              s.outsideElapsedMs + frameDelta s.lastUpdateTimestamp t, some t⟩) ∧
      (∀ (s : ZoneState) (rect : ZoneRect) (lo : Option (List Landmark)) (t : ℚ),
        s.zoneRect = some rect →
          (∀ lms, lo = some lms → ZoneDetector.checkInside (some rect) lms = false) →
          0 < s.outsideElapsedMs + frameDelta s.lastUpdateTimestamp t →
          s.outsideElapsedMs + frameDelta s.lastUpdateTimestamp t < s.breachDuration →
          (ZoneDetector.update s lo t).2 =
            ⟨.WARNING, "Leaving zone (" ++
              toFixed1 ((s.outsideElapsedMs + frameDelta s.lastUpdateTimestamp t) / 1000) ++
              "s)"⟩) ∧
      (∀ (s : ZoneState) (rect : ZoneRect) (lo : Option (List Landmark)) (t : ℚ),
        s.zoneRect = some rect →
          (∀ lms, lo = some lms → ZoneDetector.checkInside (some rect) lms = false) →
          0 < s.outsideElapsedMs + frameDelta s.lastUpdateTimestamp t →
          s.breachDuration ≤ s.outsideElapsedMs + frameDelta s.lastUpdateTimestamp t →
          (ZoneDetector.update s lo t).2 =
            ⟨.ALERT, "Outside zone for " ++
              toFixed1 ((s.outsideElapsedMs + frameDelta s.lastUpdateTimestamp t) / 1000) ++
              "s"⟩) := by
  refine ⟨?_, ?_, ?_,
    fun s rect lms t hrect hin => zone_update_inside s rect lms t hrect hin, ?_, ?_, ?_⟩
  · norm_num [ZoneDetector.checkInside, testRect, boundaryPose, defaultLandmark, LEFT_HIP,
      RIGHT_HIP]
  · norm_num [ZoneDetector.update, ZoneDetector.checkInside, testRect, boundaryPose,
      defaultLandmark, LEFT_HIP, RIGHT_HIP, frameDelta]
  · norm_num [ZoneDetector.checkInside, testRect, outsidePose, defaultLandmark, LEFT_HIP,
      RIGHT_HIP]
  · intro s rect lo t hrect hout
    rw [zone_update_not_inside s rect lo t hrect hout]
  · intro s rect lo t hrect hout h0 hlt
    rw [zone_update_not_inside s rect lo t hrect hout]
    simp only
    rw [if_neg (not_le.mpr h0), if_neg (not_le.mpr hlt)]
  · intro s rect lo t hrect hout h0 hge
    rw [zone_update_not_inside s rect lo t hrect hout]
    simp only
    rw [if_neg (not_le.mpr h0), if_pos hge]

/-- C6 witness: the outside-accumulation conjunct at the state
`⟨breachDuration 3000, zone set, accumulator 0, last update 0⟩` with a
null frame at t = 500. -/
theorem C6_witness :
    ((⟨3000, some testRect, 0, some 0⟩ : ZoneState).zoneRect = some testRect) ∧
      (ZoneDetector.update (⟨3000, some testRect, 0, some 0⟩ : ZoneState) none 500).1 =
        ⟨(⟨3000, some testRect, 0, some 0⟩ : ZoneState).breachDuration, some testRect,
          (⟨3000, some testRect, 0, some 0⟩ : ZoneState).outsideElapsedMs +
            frameDelta (⟨3000, some testRect, 0, some 0⟩ : ZoneState).lastUpdateTimestamp 500,
          some 500⟩ :=
  ⟨rfl,
    C6_zone_boundary_and_breach.2.2.2.2.1 ⟨3000, some testRect, 0, some 0⟩ testRect none 500 rfl
      (fun lms h => by cases h)⟩



lemma status_cases (st : DetectorStatus) :
    st = .OK ∨ st = .WARNING ∨ st = .ALERT := by
  cases st
  · exact Or.inl rfl
  · exact Or.inr (Or.inl rfl)
  · exact Or.inr (Or.inr rfl)

lemma visibleBBox_none :
    ∀ lms : List Landmark, (∀ lm ∈ lms, lm.visibility < 1/2) → visibleBBox lms = none := by
  intro lms
  induction lms with
  | nil => intro _; rfl
  | cons a l ih =>
    intro h
    have ha : a.visibility < 1/2 := h a (by simp)
    show (a :: l).foldl bboxStep none = none
    rw [List.foldl_cons, show bboxStep none a = none from by rw [bboxStep, if_pos ha]]
    exact ih fun lm hm => h lm (by simp [hm])

lemma checkFallenPosture_no_visible (lms : List Landmark)
    (h : ∀ lm ∈ lms, lm.visibility < 1/2) :
    FallDetector.checkFallenPosture lms = false := by
  simp only [FallDetector.checkFallenPosture, visibleBBox_none lms h]
  split_ifs <;> rfl

lemma checkFallenPosture_flat_box (lms : List Landmark) (b : BBox)
    (hbb : visibleBBox lms = some b) (hh : b.maxY - b.minY ≤ 0) :
    FallDetector.checkFallenPosture lms = false := by
  simp only [FallDetector.checkFallenPosture, hbb]
  split_ifs <;> rfl

/-- C9: in the embedding every update, configure and reset is a total
function; every update result carries one of the three normal statuses
(OK / WARNING / ALERT — there is no error variant); a pose with no
landmark above the visibility floor has an undefined bounding box and
fails the posture test (fall stays in the normal OK path), as does a
zero-or-negative-height bounding box; an empty or unrecognized
configuration bag leaves every detector unchanged. -/
theorem C9_no_failure_modes :
    (∀ (s : FallState) (lo : Option (List Landmark)) (t : ℚ),
        (FallDetector.update s lo t).2.status = .OK ∨
          (FallDetector.update s lo t).2.status = .WARNING ∨
          (FallDetector.update s lo t).2.status = .ALERT) ∧
      (∀ (s : PresenceState) (lo : Option (List Landmark)) (t : ℚ),
        (PresenceDetector.update s lo t).2.status = .OK ∨
          (PresenceDetector.update s lo t).2.status = .WARNING ∨
          (PresenceDetector.update s lo t).2.status = .ALERT) ∧
      (∀ (s : ZoneState) (lo : Option (List Landmark)) (t : ℚ),
        (ZoneDetector.update s lo t).2.status = .OK ∨
          (ZoneDetector.update s lo t).2.status = .WARNING ∨
          (ZoneDetector.update s lo t).2.status = .ALERT) ∧
      (∀ (s : InactivityState) (lo : Option (List Landmark)) (t : ℚ),
        (InactivityDetector.update s lo t).2.status = .OK ∨
          (InactivityDetector.update s lo t).2.status = .WARNING ∨
          (InactivityDetector.update s lo t).2.status = .ALERT) ∧
      (∀ lms : List Landmark, (∀ lm ∈ lms, lm.visibility < 1/2) →
        visibleBBox lms = none ∧ FallDetector.checkFallenPosture lms = false ∧
          ∀ (s : FallState) (t : ℚ),
            FallDetector.update s (some lms) t = (⟨s.holdDuration, none⟩, ⟨.OK, ""⟩)) ∧
      (∀ (lms : List Landmark) (b : BBox), visibleBBox lms = some b → b.maxY - b.minY ≤ 0 →
        FallDetector.checkFallenPosture lms = false) ∧
      ((∀ s : FallState, FallDetector.configure s none = s) ∧
        (∀ s : PresenceState, PresenceDetector.configure s none = s) ∧
        (∀ s : ZoneState, ZoneDetector.configure s none = s) ∧
        (∀ s : InactivityState, InactivityDetector.configure s none = s) ∧
        (∀ s : InactivityAltState, InactivityDetectorAlt.configure s none none = s)) := by
  refine ⟨fun s lo t => status_cases _, fun s lo t => status_cases _,
    fun s lo t => status_cases _, fun s lo t => status_cases _, ?_,
    fun lms b hbb hh => checkFallenPosture_flat_box lms b hbb hh,
    fun s => rfl, fun s => rfl, fun s => rfl, fun s => rfl, fun s => rfl⟩
  intro lms h
  refine ⟨visibleBBox_none lms h, checkFallenPosture_no_visible lms h, fun s t => ?_⟩
  exact fall_update_not_fallen s lms t (checkFallenPosture_no_visible lms h)

/-- C9 witness: the degenerate-input conjuncts at a pose of one
invisible landmark and at a one-point (zero-height) bounding box. -/
theorem C9_witness :
    (∀ lm ∈ [defaultLandmark], lm.visibility < 1/2) ∧
      (visibleBBox [defaultLandmark] = none ∧
        FallDetector.checkFallenPosture [defaultLandmark] = false ∧
        ∀ (s : FallState) (t : ℚ),
          FallDetector.update s (some [defaultLandmark]) t =
            (⟨s.holdDuration, none⟩, ⟨.OK, ""⟩)) ∧
      FallDetector.checkFallenPosture [filler] = false :=
  ⟨by norm_num [defaultLandmark],
    C9_no_failure_modes.2.2.2.2.1 [defaultLandmark] (by norm_num [defaultLandmark]),
    C9_no_failure_modes.2.2.2.2.2.1 [filler] ⟨1/2, 1/2, 1/2, 1/2⟩
      (by norm_num [visibleBBox, bboxStep, filler]) (by norm_num)⟩

lemma runInactivity_no_reset :
    ∀ (fs : List Frame) (s : InactivityState), NoMovementReset s.previousLandmarks fs →
      (runInactivity s fs).elapsedInactiveMs =
        s.elapsedInactiveMs + specAttributedSum s.previousLandmarks s.lastUpdateTimestamp fs := by
  intro fs
  induction fs with
  | nil => intro s _; simp [runInactivity, specAttributedSum]
  | cons f fs ih =>
    intro s h
    obtain ⟨lo, t⟩ := f
    cases lo with
    | none =>
      have h' : NoMovementReset s.previousLandmarks fs := h
      have step := ih ⟨s.duration, s.previousLandmarks, some t, s.elapsedInactiveMs⟩ h'
      simpa [runInactivity, List.foldl_cons, InactivityDetector.update, specAttributedSum]
        using step
    | some lms =>
      cases hp : s.previousLandmarks with
      | none =>
        rw [hp] at h
        have h' : NoMovementReset (some lms) fs := h.2
        have step := ih ⟨s.duration, some lms, some t, s.elapsedInactiveMs⟩ h'
        simp only [runInactivity, List.foldl_cons, InactivityDetector.update, hp] at step ⊢
        rw [step]
        simp [specAttributedSum, hp]
      | some prev =>
        rw [hp] at h
        have hh : computeMovementScore DEAD_ZONE prev lms < (MOVEMENT_THRESHOLD : ℝ) ∧
            NoMovementReset (some lms) fs := h
        obtain ⟨hscore, hrest⟩ := hh
        have h' : NoMovementReset (some lms) fs := hrest
        have step := ih
          ⟨s.duration, some lms, some t,
            s.elapsedInactiveMs + frameDelta s.lastUpdateTimestamp t⟩ h'
        simp only [runInactivity, List.foldl_cons, InactivityDetector.update, hp,
          if_neg (not_le.mpr hscore)] at step ⊢
        rw [step]
        simp only [specAttributedSum, hp, if_pos hscore]
        ring

/-- C7 amended: an inactivity update with null landmarks only stores
the timestamp — accumulator and previous-landmarks snapshot are
untouched (both implementations); consequently, over any frame
sequence from a fresh detector in which no present frame's movement
score reaches the threshold, the final accumulator is exactly the sum
of the deltas attributed to the present frames whose score fell below
the threshold (a mid-sequence movement reset, excluded here, would
discard the deltas attributed before it). -/
theorem C7_null_frames_pause_timer :
    (∀ (s : InactivityState) (t : ℚ),
        InactivityDetector.update s none t =
          (⟨s.duration, s.previousLandmarks, some t, s.elapsedInactiveMs⟩,
            buildResult s.elapsedInactiveMs s.duration)) ∧
      (∀ (s : InactivityAltState) (t : ℚ),
        InactivityDetectorAlt.update s none t =
          (⟨s.duration, s.deadZone, s.movementThreshold, s.previousLandmarks, some t,
              s.elapsedInactiveMs⟩,
            buildResult s.elapsedInactiveMs s.duration)) ∧
      (∀ (d : ℚ) (fs : List Frame), NoMovementReset none fs →
        (runInactivity (InactivityDetector.init d) fs).elapsedInactiveMs =
          specAttributedSum none none fs) := by
  refine ⟨fun s t => rfl, fun s t => rfl, fun d fs h => ?_⟩
  have step := runInactivity_no_reset fs (InactivityDetector.init d) h
  simpa [InactivityDetector.init] using step

/-- C7 witness: the amended statement on the one-frame null trace (the
accumulator stays 0 and equals the empty attributed sum) and the
null-update equation at a concrete state. -/
theorem C7_witness :
    NoMovementReset none [((none : Option (List Landmark)), (5 : ℚ))] ∧
      (runInactivity (InactivityDetector.init 30000)
          [((none : Option (List Landmark)), (5 : ℚ))]).elapsedInactiveMs =
        specAttributedSum none none [((none : Option (List Landmark)), (5 : ℚ))] ∧
      InactivityDetector.update (⟨30000, none, none, 0⟩ : InactivityState) none 5 =
        (⟨30000, none, some 5, 0⟩, buildResult 0 30000) :=
  ⟨trivial,
    C7_null_frames_pause_timer.2.2 30000 [((none : Option (List Landmark)), (5 : ℚ))] trivial,
    C7_null_frames_pause_timer.1 ⟨30000, none, none, 0⟩ 5⟩



lemma mono_head_tail {τ : ℚ} {f : Frame} {fs : List Frame} (h : MonoFrom τ (f :: fs)) :
    τ ≤ f.2 ∧ MonoFrom f.2 fs := by
  simp only [MonoFrom, List.map_cons] at h ⊢
  exact List.chain'_cons.mp h

lemma lastTS_cons (f : Frame) (fs : List Frame) (τ : ℚ) :
    lastTS (f :: fs) τ = lastTS fs f.2 := by
  simp only [lastTS, List.map_cons, List.getLastD_cons]

lemma le_lastTS : ∀ (fs : List Frame) (τ : ℚ), MonoFrom τ fs → τ ≤ lastTS fs τ := by
  intro fs
  induction fs with
  | nil => intro τ _; simp [lastTS]
  | cons f fs ih =>
    intro τ h
    obtain ⟨h1, h2⟩ := mono_head_tail h
    calc τ ≤ f.2 := h1
      _ ≤ lastTS fs f.2 := ih f.2 h2
      _ = lastTS (f :: fs) τ := (lastTS_cons f fs τ).symm

lemma mono_mem_le (fs : List Frame) (τ : ℚ) (h : MonoFrom τ fs) :
    ∀ t ∈ fs.map Prod.snd, τ ≤ t := by
  have hp := List.chain'_iff_pairwise.mp h
  exact (List.pairwise_cons.mp hp).1

/-- Generic accumulator bound: when every step stores the frame
timestamp and grows the accumulator by at most the frame delta (or
zeroes it), a run from a nonnegative accumulator grows by at most the
total elapsed time. -/
lemma acc_foldl_bound {σ : Type} (step : σ → Frame → σ) (acc : σ → ℚ) (last : σ → Option ℚ)
    (hstep : ∀ (s : σ) (f : Frame) (τ : ℚ), last s = some τ → 0 ≤ acc s → τ ≤ f.2 →
      last (step s f) = some f.2 ∧ 0 ≤ acc (step s f) ∧
        acc (step s f) ≤ acc s + (f.2 - τ)) :
    ∀ (fs : List Frame) (s : σ) (τ : ℚ), last s = some τ → 0 ≤ acc s → MonoFrom τ fs →
      acc (fs.foldl step s) ≤ acc s + (lastTS fs τ - τ) := by
  intro fs
  induction fs with
  | nil => intro s τ _ _ _; simp [lastTS]
  | cons f fs ih =>
    intro s τ hlast hacc hmono
    obtain ⟨hτt, htail⟩ := mono_head_tail hmono
    obtain ⟨h1, h2, h3⟩ := hstep s f τ hlast hacc hτt
    have hrec := ih (step s f) f.2 h1 h2 htail
    rw [List.foldl_cons, lastTS_cons]
    linarith

lemma presence_update_none_state (s : PresenceState) (t : ℚ) :
    (PresenceDetector.update s none t).1 =
      ⟨s.timeout, s.absenceElapsedMs + frameDelta s.lastUpdateTimestamp t, some t⟩ := by
  simp only [PresenceDetector.update]
  split_ifs <;> rfl

lemma presence_step_bound (s : PresenceState) (f : Frame) (τ : ℚ)
    (hlast : s.lastUpdateTimestamp = some τ) (hacc : 0 ≤ s.absenceElapsedMs)
    (hτ : τ ≤ f.2) :
    (PresenceDetector.update s f.1 f.2).1.lastUpdateTimestamp = some f.2 ∧
      0 ≤ (PresenceDetector.update s f.1 f.2).1.absenceElapsedMs ∧
      (PresenceDetector.update s f.1 f.2).1.absenceElapsedMs ≤
        s.absenceElapsedMs + (f.2 - τ) := by
  obtain ⟨lo, t⟩ := f
  cases lo with
  | some lms =>
    refine ⟨rfl, le_refl 0, ?_⟩
    rw [show (PresenceDetector.update s (some lms) t).1.absenceElapsedMs = 0 from rfl]
    linarith
  | none =>
    rw [presence_update_none_state]
    refine ⟨rfl, ?_, ?_⟩ <;> simp only [frameDelta, hlast] <;> linarith

lemma zone_update_some_state (s : ZoneState) (rect : ZoneRect) (lo : Option (List Landmark))
    (t : ℚ) (hz : s.zoneRect = some rect) :
    (ZoneDetector.update s lo t).1 =
      ⟨s.breachDuration, some rect,
        if (match lo with
            | some lms => ZoneDetector.checkInside (some rect) lms
            | none => false) = true then 0
          else s.outsideElapsedMs + frameDelta s.lastUpdateTimestamp t,
        some t⟩ := by
  simp only [ZoneDetector.update, hz]
  split_ifs <;> rfl

lemma zone_step_bound (s : ZoneState) (f : Frame) (τ : ℚ)
    (hlast : s.lastUpdateTimestamp = some τ) (hacc : 0 ≤ s.outsideElapsedMs)
    (hτ : τ ≤ f.2) :
    (ZoneDetector.update s f.1 f.2).1.lastUpdateTimestamp = some f.2 ∧
      0 ≤ (ZoneDetector.update s f.1 f.2).1.outsideElapsedMs ∧
      (ZoneDetector.update s f.1 f.2).1.outsideElapsedMs ≤
        s.outsideElapsedMs + (f.2 - τ) := by
  obtain ⟨lo, t⟩ := f
  cases hz : s.zoneRect with
  | none =>
    have hstate : (ZoneDetector.update s lo t).1 =
        ⟨s.breachDuration, none, s.outsideElapsedMs, some t⟩ := by
      cases lo <;> simp only [ZoneDetector.update, hz]
    rw [hstate]
    exact ⟨rfl, hacc, by linarith⟩
  | some rect =>
    rw [zone_update_some_state s rect lo t hz]
    refine ⟨rfl, ?_, ?_⟩ <;> (simp only [frameDelta, hlast]; split_ifs <;> linarith)

lemma inactivity_step_bound (s : InactivityState) (f : Frame) (τ : ℚ)
    (hlast : s.lastUpdateTimestamp = some τ) (hacc : 0 ≤ s.elapsedInactiveMs)
    (hτ : τ ≤ f.2) :
    (InactivityDetector.update s f.1 f.2).1.lastUpdateTimestamp = some f.2 ∧
      0 ≤ (InactivityDetector.update s f.1 f.2).1.elapsedInactiveMs ∧
      (InactivityDetector.update s f.1 f.2).1.elapsedInactiveMs ≤
        s.elapsedInactiveMs + (f.2 - τ) := by
  obtain ⟨lo, t⟩ := f
  cases lo with
  | none =>
    refine ⟨rfl, ?_, ?_⟩ <;>
      rw [show (InactivityDetector.update s none t).1.elapsedInactiveMs =
        s.elapsedInactiveMs from rfl] <;> linarith
  | some lms =>
    cases hp : s.previousLandmarks with
    | none =>
      have hstate : (InactivityDetector.update s (some lms) t).1 =
          ⟨s.duration, some lms, some t, s.elapsedInactiveMs⟩ := by
        simp only [InactivityDetector.update, hp]
      rw [hstate]
      exact ⟨rfl, hacc, by linarith⟩
    | some prev =>
      have hstate : (InactivityDetector.update s (some lms) t).1 =
          ⟨s.duration, some lms, some t,
            if computeMovementScore DEAD_ZONE prev lms ≥ (MOVEMENT_THRESHOLD : ℝ) then 0
            else s.elapsedInactiveMs + frameDelta s.lastUpdateTimestamp t⟩ := by
        simp only [InactivityDetector.update, hp]
      rw [hstate]
      refine ⟨rfl, ?_, ?_⟩ <;> (simp only [frameDelta, hlast]; split_ifs <;> linarith)

lemma fall_update_since (s : FallState) (lo : Option (List Landmark)) (t : ℚ) :
    (FallDetector.update s lo t).1.fallenSince = none ∨
      (FallDetector.update s lo t).1.fallenSince = s.fallenSince ∨
      ((FallDetector.update s lo t).1.fallenSince = some t ∧ s.fallenSince = none) := by
  cases lo with
  | none => exact Or.inl rfl
  | some lms =>
    cases hck : FallDetector.checkFallenPosture lms with
    | false => rw [fall_update_not_fallen s lms t hck]; exact Or.inl rfl
    | true =>
      cases hs : s.fallenSince with
      | none =>
        have hstate : (FallDetector.update s (some lms) t).1 = ⟨s.holdDuration, some t⟩ := by
          simp only [FallDetector.update, hck, hs, Option.getD_none, if_true]
          split_ifs <;> rfl
        rw [hstate]
        exact Or.inr (Or.inr ⟨rfl, rfl⟩)
      | some τ0 =>
        rw [fall_update_fallen s τ0 lms t hs hck]
        exact Or.inr (Or.inl (by simp [hs]))

lemma fall_since_run :
    ∀ (fs : List Frame) (s : FallState) (τ : ℚ),
      (∀ τ0, s.fallenSince = some τ0 → τ ≤ τ0) → (∀ t ∈ fs.map Prod.snd, τ ≤ t) →
      ∀ τ1, (runFall s fs).fallenSince = some τ1 → τ ≤ τ1 := by
  intro fs
  induction fs with
  | nil => intro s τ hs _ τ1 h1; exact hs τ1 h1
  | cons f fs ih =>
    intro s τ hs hmem τ1 h1
    have hstep := fall_update_since s f.1 f.2
    have hmem' : ∀ t ∈ fs.map Prod.snd, τ ≤ t := fun t ht =>
      hmem t (by simp only [List.map_cons]; exact List.mem_cons_of_mem _ ht)
    have hnext : ∀ τ0, (FallDetector.update s f.1 f.2).1.fallenSince = some τ0 → τ ≤ τ0 := by
      intro τ0 h0
      rcases hstep with h | h | ⟨h, _⟩
      · rw [h] at h0; cases h0
      · rw [h] at h0; exact hs τ0 h0
      · rw [h] at h0
        have : f.2 = τ0 := by injection h0
        rw [← this]
        exact hmem f.2 (by simp)
    have : runFall s (f :: fs) = runFall ((FallDetector.update s f.1 f.2).1) fs := rfl
    rw [this] at h1
    exact ih _ τ hnext hmem' τ1 h1

/-- C8: along any monotone-timestamped trace, each detector's
accumulator (the fall detector's implied elapsed read at the final
timestamp) never exceeds its value at a zeroing point plus the total
elapsed time since then — instantiated at an accumulator of 0, the sum
of all frame deltas since the last zeroing. -/
theorem C8_accumulated_time_bounded :
    (∀ (s : FallState) (τ : ℚ) (fs : List Frame), s.fallenSince = some τ → MonoFrom τ fs →
        fallElapsed (runFall s fs) (lastTS fs τ) ≤ lastTS fs τ - τ) ∧
      (∀ (s : PresenceState) (τ : ℚ) (fs : List Frame), s.lastUpdateTimestamp = some τ →
        0 ≤ s.absenceElapsedMs → MonoFrom τ fs →
        (runPresence s fs).absenceElapsedMs ≤ s.absenceElapsedMs + (lastTS fs τ - τ)) ∧
      (∀ (s : ZoneState) (τ : ℚ) (fs : List Frame), s.lastUpdateTimestamp = some τ →
        0 ≤ s.outsideElapsedMs → MonoFrom τ fs →
        (runZone s fs).outsideElapsedMs ≤ s.outsideElapsedMs + (lastTS fs τ - τ)) ∧
      (∀ (s : InactivityState) (τ : ℚ) (fs : List Frame), s.lastUpdateTimestamp = some τ →
        0 ≤ s.elapsedInactiveMs → MonoFrom τ fs →
        (runInactivity s fs).elapsedInactiveMs ≤
          s.elapsedInactiveMs + (lastTS fs τ - τ)) := by
  refine ⟨?_, ?_, ?_, ?_⟩
  · intro s τ fs hsince hmono
    have hmem := mono_mem_le fs τ hmono
    have hbase : ∀ τ0, s.fallenSince = some τ0 → τ ≤ τ0 := by
      intro τ0 h0
      rw [hsince] at h0
      have : τ = τ0 := by injection h0
      exact le_of_eq this
    have hfinal := fall_since_run fs s τ hbase hmem
    have hlast := le_lastTS fs τ hmono
    cases hfs : (runFall s fs).fallenSince with
    | none => simp [fallElapsed, hfs]; linarith
    | some τ1 =>
      have hτ1 := hfinal τ1 hfs
      simp [fallElapsed, hfs]
      linarith
  · intro s τ fs hlast hacc hmono
    exact acc_foldl_bound _ PresenceState.absenceElapsedMs PresenceState.lastUpdateTimestamp
      (fun s f τ h1 h2 h3 => presence_step_bound s f τ h1 h2 h3) fs s τ hlast hacc hmono
  · intro s τ fs hlast hacc hmono
    exact acc_foldl_bound _ ZoneState.outsideElapsedMs ZoneState.lastUpdateTimestamp
      (fun s f τ h1 h2 h3 => zone_step_bound s f τ h1 h2 h3) fs s τ hlast hacc hmono
  · intro s τ fs hlast hacc hmono
    exact acc_foldl_bound _ InactivityState.elapsedInactiveMs InactivityState.lastUpdateTimestamp
      (fun s f τ h1 h2 h3 => inactivity_step_bound s f τ h1 h2 h3) fs s τ hlast hacc hmono

/-- C8 witness: all four bounds on the one-frame trace `[(null, 5)]`
from states with last update at 0 and accumulator 0 (fall: timer
started at 0). -/
theorem C8_witness :
    (fallElapsed (runFall (⟨2000, some 0⟩ : FallState) [(none, 5)]) (lastTS [(none, 5)] 0) ≤
        lastTS [(none, 5)] 0 - 0) ∧
      ((runPresence (⟨10000, 0, some 0⟩ : PresenceState) [(none, 5)]).absenceElapsedMs ≤
        (⟨10000, 0, some 0⟩ : PresenceState).absenceElapsedMs + (lastTS [(none, 5)] 0 - 0)) ∧
      ((runZone (⟨3000, none, 0, some 0⟩ : ZoneState) [(none, 5)]).outsideElapsedMs ≤
        (⟨3000, none, 0, some 0⟩ : ZoneState).outsideElapsedMs + (lastTS [(none, 5)] 0 - 0)) ∧
      ((runInactivity (⟨30000, none, some 0, 0⟩ : InactivityState)
            [(none, 5)]).elapsedInactiveMs ≤
        (⟨30000, none, some 0, 0⟩ : InactivityState).elapsedInactiveMs +
          (lastTS [(none, 5)] 0 - 0)) :=
  ⟨C8_accumulated_time_bounded.1 ⟨2000, some 0⟩ 0 [(none, 5)] rfl
      (by norm_num [MonoFrom, List.chain'_cons, List.chain'_singleton]),
    C8_accumulated_time_bounded.2.1 ⟨10000, 0, some 0⟩ 0 [(none, 5)] rfl (le_refl 0)
      (by norm_num [MonoFrom, List.chain'_cons, List.chain'_singleton]),
    C8_accumulated_time_bounded.2.2.1 ⟨3000, none, 0, some 0⟩ 0 [(none, 5)] rfl (le_refl 0)
      (by norm_num [MonoFrom, List.chain'_cons, List.chain'_singleton]),
    C8_accumulated_time_bounded.2.2.2 ⟨30000, none, some 0, 0⟩ 0 [(none, 5)] rfl (le_refl 0)
      (by norm_num [MonoFrom, List.chain'_cons, List.chain'_singleton])⟩



lemma inactivity_update_scored (s : InactivityState) (prev lms : List Landmark) (t : ℚ)
    (hp : s.previousLandmarks = some prev) :
    InactivityDetector.update s (some lms) t =
      (⟨s.duration, some lms, some t,
          if computeMovementScore DEAD_ZONE prev lms ≥ (MOVEMENT_THRESHOLD : ℝ) then 0
          else s.elapsedInactiveMs + frameDelta s.lastUpdateTimestamp t⟩,
        buildResult
          (if computeMovementScore DEAD_ZONE prev lms ≥ (MOVEMENT_THRESHOLD : ℝ) then 0
            else s.elapsedInactiveMs + frameDelta s.lastUpdateTimestamp t)
          s.duration) := by
  simp only [InactivityDetector.update, hp]

lemma inactivityAlt_update_scored (s : InactivityAltState) (prev lms : List Landmark) (t : ℚ)
    (hp : s.previousLandmarks = some prev) :
    InactivityDetectorAlt.update s (some lms) t =
      (⟨s.duration, s.deadZone, s.movementThreshold, some lms, some t,
          if computeMovementScore s.deadZone prev lms ≥ (s.movementThreshold : ℝ) then 0
          else s.elapsedInactiveMs + frameDelta s.lastUpdateTimestamp t⟩,
        buildResult
          (if computeMovementScore s.deadZone prev lms ≥ (s.movementThreshold : ℝ) then 0
            else s.elapsedInactiveMs + frameDelta s.lastUpdateTimestamp t)
          s.duration) := by
  simp only [InactivityDetectorAlt.update, hp]

lemma inactivity_update_scored_lit (d : ℚ) (prev lms : List Landmark) (lt : Option ℚ)
    (e t : ℚ) :
    InactivityDetector.update ⟨d, some prev, lt, e⟩ (some lms) t =
      (⟨d, some lms, some t,
          if computeMovementScore DEAD_ZONE prev lms ≥ (MOVEMENT_THRESHOLD : ℝ) then 0
          else e + frameDelta lt t⟩,
        buildResult
          (if computeMovementScore DEAD_ZONE prev lms ≥ (MOVEMENT_THRESHOLD : ℝ) then 0
            else e + frameDelta lt t) d) := rfl

lemma inactivityAlt_update_scored_lit (d dz mt : ℚ) (prev lms : List Landmark)
    (lt : Option ℚ) (e t : ℚ) :
    InactivityDetectorAlt.update ⟨d, dz, mt, some prev, lt, e⟩ (some lms) t =
      (⟨d, dz, mt, some lms, some t,
          if computeMovementScore dz prev lms ≥ (mt : ℝ) then 0 else e + frameDelta lt t⟩,
        buildResult
          (if computeMovementScore dz prev lms ≥ (mt : ℝ) then 0 else e + frameDelta lt t)
          d) := rfl

/-- C7 counterexample: on the four-frame trace pose/pose/moved/moved a
mid-trace movement reset (frame 3 scores exactly the threshold 0.01)
discards the 1000 ms accumulated at frame 2, so the final accumulator
is 1000 while the sum of the deltas attributed to the present
below-threshold frames (frames 2 and 4) is 2000: the claim's equality
fails for sequences containing a movement reset. -/
theorem C7_counterexample :
    (runInactivity (InactivityDetector.init 30000)
          [(some (probePose (1/2)), 0), (some (probePose (1/2)), 1000),
            (some (probePose (51/100)), 2000),
            (some (probePose (51/100)), 3000)]).elapsedInactiveMs = 1000 ∧
      specAttributedSum none none
          [(some (probePose (1/2)), 0), (some (probePose (1/2)), 1000),
            (some (probePose (51/100)), 2000), (some (probePose (51/100)), 3000)] = 2000 ∧
      (1000 : ℚ) ≠ 2000 := by
  have hmt : ¬((0 : ℝ) ≥ ((MOVEMENT_THRESHOLD : ℚ) : ℝ)) := by
    norm_num [MOVEMENT_THRESHOLD]
  have hmt2 : (1/100 : ℝ) ≥ ((MOVEMENT_THRESHOLD : ℚ) : ℝ) := by
    norm_num [MOVEMENT_THRESHOLD]
  have e1 : InactivityDetector.update (InactivityDetector.init 30000)
      (some (probePose (1/2))) 0 =
      (⟨30000, some (probePose (1/2)), some 0, 0⟩, ⟨.OK, ""⟩) := rfl
  have e2 : InactivityDetector.update ⟨30000, some (probePose (1/2)), some 0, 0⟩
      (some (probePose (1/2))) 1000 =
      (⟨30000, some (probePose (1/2)), some 1000, 1000⟩, buildResult 1000 30000) := by
    rw [inactivity_update_scored _ (probePose (1/2)) _ _ rfl,
      computeMovementScore_self DEAD_ZONE le_rfl, if_neg hmt]
    norm_num [frameDelta]
  have e3 : InactivityDetector.update ⟨30000, some (probePose (1/2)), some 1000, 1000⟩
      (some (probePose (51/100))) 2000 =
      (⟨30000, some (probePose (51/100)), some 2000, 0⟩, buildResult 0 30000) := by
    rw [inactivity_update_scored _ (probePose (1/2)) _ _ rfl,
      score_probe_move DEAD_ZONE (by norm_num [DEAD_ZONE]), if_pos hmt2]
  have e4 : InactivityDetector.update ⟨30000, some (probePose (51/100)), some 2000, 0⟩
      (some (probePose (51/100))) 3000 =
      (⟨30000, some (probePose (51/100)), some 3000, 1000⟩, buildResult 1000 30000) := by
    rw [inactivity_update_scored _ (probePose (51/100)) _ _ rfl,
      computeMovementScore_self DEAD_ZONE le_rfl, if_neg hmt]
    norm_num [frameDelta]
  refine ⟨?_, ?_, by norm_num⟩
  · show (runInactivity (InactivityDetector.init 30000) _).elapsedInactiveMs = 1000
    simp only [runInactivity, List.foldl_cons, List.foldl_nil, e1, e2, e3, e4]
  · simp only [specAttributedSum, computeMovementScore_self DEAD_ZONE le_rfl,
      score_probe_move DEAD_ZONE (by norm_num [DEAD_ZONE])]
    norm_num [frameDelta, MOVEMENT_THRESHOLD]

lemma inactivity_results_linked :
    ∀ (fs : List Frame) (s1 : InactivityState) (s2 : InactivityAltState),
      s2.duration = s1.duration → s2.deadZone = DEAD_ZONE_AT_LOW →
      s2.movementThreshold = MOVEMENT_THRESHOLD_AT_LOW →
      s2.previousLandmarks = s1.previousLandmarks →
      s2.lastUpdateTimestamp = s1.lastUpdateTimestamp →
      s2.elapsedInactiveMs = s1.elapsedInactiveMs →
      smallMoves s1.previousLandmarks fs = true →
      inactivityResults s1 fs = inactivityAltResults s2 fs := by
  intro fs
  induction fs with
  | nil => intros; rfl
  | cons f fs ih =>
    intro s1 s2 hd hdz hmt hp hl he hsm
    obtain ⟨lo, t⟩ := f
    cases lo with
    | none =>
      simp only [inactivityResults, inactivityAltResults, InactivityDetector.update,
        InactivityDetectorAlt.update]
      congr 1
      · rw [he, hd]
      · exact ih ⟨s1.duration, s1.previousLandmarks, some t, s1.elapsedInactiveMs⟩
          ⟨s2.duration, s2.deadZone, s2.movementThreshold, s2.previousLandmarks, some t,
            s2.elapsedInactiveMs⟩ hd hdz hmt hp rfl he hsm
    | some lms =>
      cases hp1 : s1.previousLandmarks with
      | none =>
        have hp2 : s2.previousLandmarks = none := hp.trans hp1
        have hrest : smallMoves (some lms) fs = true := by
          rw [hp1] at hsm
          simpa [smallMoves, Bool.and_eq_true] using hsm
        simp only [inactivityResults, inactivityAltResults, InactivityDetector.update,
          InactivityDetectorAlt.update, hp1, hp2]
        congr 1
        exact ih ⟨s1.duration, some lms, some t, s1.elapsedInactiveMs⟩
          ⟨s2.duration, s2.deadZone, s2.movementThreshold, some lms, some t,
            s2.elapsedInactiveMs⟩ hd hdz hmt rfl rfl he hrest
      | some prev =>
        have hp2 : s2.previousLandmarks = some prev := hp.trans hp1
        rw [hp1] at hsm
        have hsm' : ((prev.zip lms).all fun pc => closePair pc.1 pc.2) = true ∧
            smallMoves (some lms) fs = true := by
          simpa [smallMoves, Bool.and_eq_true] using hsm
        obtain ⟨hcl, hrest⟩ := hsm'
        have hz1 : computeMovementScore DEAD_ZONE prev lms = 0 :=
          movementScoreAux_small DEAD_ZONE le_rfl prev lms hcl 0
        have hz2 : computeMovementScore s2.deadZone prev lms = 0 := by
          rw [hdz]
          exact movementScoreAux_small DEAD_ZONE_AT_LOW
            (by norm_num [DEAD_ZONE, DEAD_ZONE_AT_LOW]) prev lms hcl 0
        have hc1 : ¬(computeMovementScore DEAD_ZONE prev lms ≥ (MOVEMENT_THRESHOLD : ℝ)) := by
          rw [hz1]
          norm_num [MOVEMENT_THRESHOLD]
        have hc2 : ¬(computeMovementScore s2.deadZone prev lms ≥
            (s2.movementThreshold : ℝ)) := by
          rw [hz2, hmt]
          norm_num [MOVEMENT_THRESHOLD_AT_LOW]
        simp only [inactivityResults, inactivityAltResults,
          inactivity_update_scored s1 prev lms t hp1,
          inactivityAlt_update_scored s2 prev lms t hp2, if_neg hc1, if_neg hc2]
        congr 1
        · rw [he, hl, hd]
        · exact ih
            ⟨s1.duration, some lms, some t,
              s1.elapsedInactiveMs + frameDelta s1.lastUpdateTimestamp t⟩
            ⟨s2.duration, s2.deadZone, s2.movementThreshold, some lms, some t,
              s2.elapsedInactiveMs + frameDelta s2.lastUpdateTimestamp t⟩
            hd hdz hmt rfl rfl (by rw [he, hl]) hrest

/-- C10 counterexample: on the trace probe-pose at t = 0 then the same
pose moved by 0.01 at t = 1000, constructed with the same
`{duration: 30000}` and no sensitivity, the fixed-threshold
implementation scores 0.01 ≥ its threshold 0.01 (movement, stays OK)
while the sensitivity variant's defaults (threshold 0.02) score below
it (accumulates 1000 ms, WARNING), so the two return different
results. -/
theorem C10_counterexample :
    inactivityResults (InactivityDetector.init 30000)
        [(some (probePose (1/2)), 0), (some (probePose (51/100)), 1000)] ≠
      inactivityAltResults (InactivityDetectorAlt.init 30000 none)
        [(some (probePose (1/2)), 0), (some (probePose (51/100)), 1000)] := by
  have hmt2 : (1/100 : ℝ) ≥ ((MOVEMENT_THRESHOLD : ℚ) : ℝ) := by
    norm_num [MOVEMENT_THRESHOLD]
  have hneg : ¬((1/100 : ℝ) ≥ ((MOVEMENT_THRESHOLD_AT_LOW : ℚ) : ℝ)) := by
    norm_num [MOVEMENT_THRESHOLD_AT_LOW]
  have hinit : InactivityDetectorAlt.init 30000 none =
      ⟨30000, DEAD_ZONE_AT_LOW, MOVEMENT_THRESHOLD_AT_LOW, none, none, 0⟩ := by
    rw [show InactivityDetectorAlt.init 30000 none =
      ⟨30000, lerp DEAD_ZONE_AT_LOW DEAD_ZONE_AT_HIGH 1,
        lerp MOVEMENT_THRESHOLD_AT_LOW MOVEMENT_THRESHOLD_AT_HIGH 1, none, none, 0⟩ from rfl,
      lerp_at_low, lerp_at_low]
  have f1 : InactivityDetector.update (InactivityDetector.init 30000)
      (some (probePose (1/2))) 0 =
      (⟨30000, some (probePose (1/2)), some 0, 0⟩, ⟨.OK, ""⟩) := rfl
  have f2 : InactivityDetector.update ⟨30000, some (probePose (1/2)), some 0, 0⟩
      (some (probePose (51/100))) 1000 =
      (⟨30000, some (probePose (51/100)), some 1000, 0⟩, buildResult 0 30000) := by
    rw [inactivity_update_scored_lit 30000 (probePose (1/2)) (probePose (51/100)) (some 0) 0
      1000, score_probe_move DEAD_ZONE (by norm_num [DEAD_ZONE]), if_pos hmt2]
  have g1 : InactivityDetectorAlt.update
      (⟨30000, DEAD_ZONE_AT_LOW, MOVEMENT_THRESHOLD_AT_LOW, none, none, 0⟩ : InactivityAltState)
      (some (probePose (1/2))) 0 =
      (⟨30000, DEAD_ZONE_AT_LOW, MOVEMENT_THRESHOLD_AT_LOW, some (probePose (1/2)), some 0, 0⟩,
        ⟨.OK, ""⟩) := rfl
  have g2 : InactivityDetectorAlt.update
      (⟨30000, DEAD_ZONE_AT_LOW, MOVEMENT_THRESHOLD_AT_LOW, some (probePose (1/2)), some 0,
        0⟩ : InactivityAltState) (some (probePose (51/100))) 1000 =
      (⟨30000, DEAD_ZONE_AT_LOW, MOVEMENT_THRESHOLD_AT_LOW, some (probePose (51/100)),
          some 1000, 1000⟩,
        buildResult 1000 30000) := by
    rw [inactivityAlt_update_scored_lit 30000 DEAD_ZONE_AT_LOW MOVEMENT_THRESHOLD_AT_LOW
      (probePose (1/2)) (probePose (51/100)) (some 0) 0 1000,
      score_probe_move DEAD_ZONE_AT_LOW (by norm_num [DEAD_ZONE_AT_LOW]), if_neg hneg]
    norm_num [frameDelta]
  have h1 : inactivityResults (InactivityDetector.init 30000)
      [(some (probePose (1/2)), 0), (some (probePose (51/100)), 1000)] =
      [⟨.OK, ""⟩, buildResult 0 30000] := by
    simp only [inactivityResults, f1, f2]
  have h2 : inactivityAltResults (InactivityDetectorAlt.init 30000 none)
      [(some (probePose (1/2)), 0), (some (probePose (51/100)), 1000)] =
      [⟨.OK, ""⟩, buildResult 1000 30000] := by
    rw [hinit]
    simp only [inactivityAltResults, g1, g2]
  rw [h1, h2]
  have hb0 : buildResult 0 30000 = ⟨.OK, ""⟩ := by norm_num [buildResult]
  have hb1000 : buildResult 1000 30000 = ⟨.WARNING, "No movement for 1s"⟩ := by
    norm_num [buildResult, toFixed0, Int.floor_eq_iff]
    decide
  rw [hb0, hb1000]
  decide

/-- C10 amended: the two inactivity implementations, constructed with
the same `{duration}` and no sensitivity, return identical result
sequences on every trace whose present frames each displace every
landmark by less than 0.002 (below both dead zones, e.g. a perfectly
static pose); they are not equivalent in general, because their dead
zones (0.002 vs 0.004) and movement thresholds (0.01 vs 0.02)
differ. -/
theorem C10_inactivity_variants_agree (d : ℚ) (fs : List Frame)
    (h : smallMoves none fs = true) :
    inactivityResults (InactivityDetector.init d) fs =
      inactivityAltResults (InactivityDetectorAlt.init d none) fs :=
  inactivity_results_linked fs (InactivityDetector.init d)
    (InactivityDetectorAlt.init d none) rfl
    (lerp_at_low DEAD_ZONE_AT_LOW DEAD_ZONE_AT_HIGH)
    (lerp_at_low MOVEMENT_THRESHOLD_AT_LOW MOVEMENT_THRESHOLD_AT_HIGH) rfl rfl rfl h

/-- C10 witness: the amended statement on the static two-frame trace
(same probe pose at t = 0 and t = 1000). -/
theorem C10_witness :
    smallMoves none
        [(some (probePose (1/2)), 0), (some (probePose (1/2)), 1000)] = true ∧
      inactivityResults (InactivityDetector.init 30000)
          [(some (probePose (1/2)), 0), (some (probePose (1/2)), 1000)] =
        inactivityAltResults (InactivityDetectorAlt.init 30000 none)
          [(some (probePose (1/2)), 0), (some (probePose (1/2)), 1000)] :=
  ⟨by simp [smallMoves, zip_self_close],
    C10_inactivity_variants_agree 30000
      [(some (probePose (1/2)), 0), (some (probePose (1/2)), 1000)]
      (by simp [smallMoves, zip_self_close])⟩


end MotionPoc
